import Mathlib

/-!
# Bookmaker front-end: `betting.js` and `matchDiscovery.js`

A shallow embedding of the two browser scripts.  JavaScript strings are
sequences of UTF-16 code units, primitive values are a small sum type, Numbers
are IEEE 754 doubles with `toString` and `toFixed` after ECMA-262, DOM
elements are records of the properties the scripts read or write, and every
function is a state-passing function that also reports how it completed
(normally, or by throwing).
-/

namespace Bookmaker

/-! ## JavaScript values -/

/-- A JavaScript string: its UTF-16 code units (each below `0x10000`). -/
abbrev JSString := List Nat

/-- The code units of a string literal of the scripts. -/
def js (s : String) : JSString := s.toList.map Char.toNat

/-- The exceptions the built-ins used by the scripts can throw. -/
inductive JSError where
  | TypeError
  | URIError
  deriving DecidableEq, Repr

/-- The mathematical value of a Number: not a number, an infinity, or the
fraction `num / den` with its sign (`negative` with `num = 0` is `-0`). -/
inductive NumValue where
  | nan
  | infinite (negative : Bool)
  | finite (negative : Bool) (num den : Nat)
  deriving DecidableEq, Repr

/-- The engine's Number type with the built-in operations the scripts rely on,
and the mathematical value of each Number. -/
class JSNumber (Num : Type) where
  /-- The comparison `x === y` on two numbers. -/
  strictEq : Num → Num → Bool
  /-- SameValueZero on two numbers, used by `Array.prototype.includes`. -/
  sameValueZero : Num → Num → Bool
  /-- ToBoolean of a number. -/
  toBoolean : Num → Bool
  /-- ToString of a number, used in template literals. -/
  toStr : Num → JSString
  /-- The mathematical value of a number. -/
  value : Num → NumValue

/-- The decimal digits of `n`, most significant first, with `fuel` bounding the
number of digits after the first. -/
def natDigitsAux : Nat → Nat → List Nat
  | 0, n => [48 + n % 10]
  | fuel + 1, n => if n < 10 then [48 + n] else natDigitsAux fuel (n / 10) ++ [48 + n % 10]

/-- The decimal digits of `n` as code units, most significant first; `0` for
zero. -/
def natDigits (n : Nat) : List Nat := natDigitsAux n n

/-- The number that a sequence of decimal digits, given as code units, writes. -/
def digitsValue (digits : List Nat) : Nat :=
  digits.foldl (fun acc c => 10 * acc + (c - 48)) 0

/-- Steps 8 to 10 of `Number.prototype.toFixed` for two fraction digits, on a
Number of magnitude `num / den` below `10^21`: `n` is the integer for which
`n / 100` is nearest to the magnitude (the larger one on a tie), its digits are
padded with zeros to three at least, and the point goes before the last two;
a minus sign comes first when the Number is below zero. -/
def fixedDigits2 (negative : Bool) (num den : Nat) : JSString :=
  let s := if negative && decide (0 < num) then [45] else []
  let n := (200 * num + den) / (2 * den)
  let digits := natDigits n
  let m := List.replicate (3 - digits.length) 48 ++ digits
  s ++ m.take (m.length - 2) ++ [46] ++ m.drop (m.length - 2)

/-- The method `Number.prototype.toFixed` called with 2, from the value of the
Number and its ToString `str`: a Number that is not finite or whose magnitude
is `10^21` or more is shown as ToString shows it (the sign that `toFixed`
takes off and puts back is the one ToString writes), any other one with two
fraction digits. -/
def numberToFixed2 (v : NumValue) (str : JSString) : JSString :=
  match v with
  | .finite negative num den =>
    if num < 10 ^ 21 * den then fixedDigits2 negative num den else str
  | _ => str

/-- Primitive JavaScript values: what a data attribute, a cookie lookup or a
field of a parsed JSON payload can hold. -/
inductive JSVal (Num : Type) where
  | undefined
  | null
  | bool (b : Bool)
  | num (x : Num)
  | str (s : JSString)
  deriving DecidableEq, Repr

namespace JSVal

variable {Num : Type} [JSNumber Num]

/-- The operator `===`. -/
def strictEq : JSVal Num → JSVal Num → Bool
  | undefined, undefined => true
  | null, null => true
  | bool a, bool b => a == b
  | num x, num y => JSNumber.strictEq x y
  | str a, str b => a == b
  | _, _ => false

/-- SameValueZero, the comparison of `Array.prototype.includes`. -/
def sameValueZero : JSVal Num → JSVal Num → Bool
  | undefined, undefined => true
  | null, null => true
  | bool a, bool b => a == b
  | num x, num y => JSNumber.sameValueZero x y
  | str a, str b => a == b
  | _, _ => false

/-- ToBoolean: the truthiness tested by `if (...)` and by the operator `||`. -/
def toBoolean : JSVal Num → Bool
  | undefined => false
  | null => false
  | bool b => b
  | num x => JSNumber.toBoolean x
  | str s => !s.isEmpty

/-- ToString, as applied to the holes of a template literal. -/
def toStr : JSVal Num → JSString
  | undefined => js "undefined"
  | null => js "null"
  | bool true => js "true"
  | bool false => js "false"
  | num x => JSNumber.toStr x
  | str s => s

/-- A value read from `element.dataset`: a string, or `undefined` when the
attribute is absent. -/
def IsDatasetValue : JSVal Num → Prop
  | undefined => True
  | str _ => True
  | _ => False

end JSVal

/-! ## Numbers as IEEE 754 doubles -/

/-- A Number: not a number, an infinity, or the finite value
`mant * 2 ^ exp` with its sign, where `mant` is below `2 ^ 53` and `exp` lies
between `-1074` and `971`. -/
inductive JSDouble where
  | nan
  | infinity (negative : Bool)
  | finite (negative : Bool) (mant : Nat) (exp : Int)
  deriving DecidableEq, Repr

namespace JSDouble

/-- The mantissa doubled and the exponent lowered until the mantissa has 53
bits or the exponent is the least one. -/
def normalizeAux : Nat → Nat → Int → Nat × Int
  | 0, m, e => (m, e)
  | fuel + 1, m, e =>
    if m < 2 ^ 52 ∧ -1074 < e then normalizeAux fuel (2 * m) (e - 1) else (m, e)

/-- The reals that round to a positive double and the double itself, as
numerators over the common denominator `den`; `closed` tells whether the two
ends round to it too (they do when its mantissa is even). -/
structure Interval where
  lo : Nat
  mid : Nat
  hi : Nat
  den : Nat
  closed : Bool
  deriving DecidableEq, Repr

/-- The rounding interval of the positive double `mant * 2 ^ exp`: half way to
the next double above and half way to the next one below, which is half as far
when the mantissa is a power of two. -/
def roundingInterval (mant : Nat) (exp : Int) : Interval :=
  let r := normalizeAux 52 mant exp
  let below := if r.1 = 2 ^ 52 ∧ -1074 < r.2 then 1 else 2
  let scale := 2 ^ (r.2 - 2).toNat
  { lo := (4 * r.1 - below) * scale,
    mid := 4 * r.1 * scale,
    hi := (4 * r.1 + 2) * scale,
    den := 2 ^ (2 - r.2).toNat,
    closed := r.1 % 2 == 0 }

/-- The least `j`, counted from `j`, for which `mid * 10 ^ j` reaches `den`. -/
def scaleUp (mid den : Nat) : Nat → Nat → Nat
  | 0, j => j
  | fuel + 1, j => if den ≤ mid * 10 ^ j then j else scaleUp mid den fuel (j + 1)

/-- The integer `e` with `10 ^ e ≤ mid / den < 10 ^ (e + 1)`. -/
def decimalExponent (i : Interval) : Int :=
  if i.den ≤ i.mid then ((natDigits (i.mid / i.den)).length : Int) - 1
  else - (scaleUp i.mid i.den 400 1 : Int)

/-- Whether `s * 10 ^ p` rounds to the double of the interval. -/
def roundsTo (i : Interval) (s : Nat) (p : Int) : Bool :=
  let v := s * 10 ^ p.toNat * i.den
  let q := 10 ^ (-p).toNat
  if i.closed then decide (i.lo * q ≤ v ∧ v ≤ i.hi * q)
  else decide (i.lo * q < v ∧ v < i.hi * q)

/-- The `k`-digit integer `s` for which `s * 10 ^ p` rounds to the double and
is nearest to it (the even one on a tie), if there is one. -/
def candidate (i : Interval) (p : Int) : Option Nat :=
  let q := 10 ^ (-p).toNat
  let unit := 10 ^ p.toNat * i.den
  let s0 := i.mid * q / unit
  let s1 := s0 + 1
  let d0 := i.mid * q - s0 * unit
  let d1 := s1 * unit - i.mid * q
  match roundsTo i s0 p, roundsTo i s1 p with
  | true, true => if d0 < d1 then some s0 else if d1 < d0 then some s1
                  else if s0 % 2 = 0 then some s0 else some s1
  | true, false => some s0
  | false, true => some s1
  | false, false => none

/-- The search of `Number::toString` for the fewest digits: `k` goes up from
its start until some `k`-digit `s` with `s * 10 ^ (e + 1 - k)` rounds to the
double. -/
def shortest (i : Interval) (e : Int) : Nat → Nat → Nat × Int
  | 0, k => (i.mid * 10 ^ (k - 1 - e).toNat / (10 ^ (e + 1 - k).toNat * i.den), e + 1 - k)
  | fuel + 1, k =>
    match candidate i (e + 1 - k) with
    | some s => (s, e + 1 - k)
    | none => shortest i e fuel (k + 1)

/-- Steps 7 to 12 of `Number::toString`: the digits of `s` and the position
`n` of the decimal point give the plain or the exponential notation. -/
def formatDigits (digits : List Nat) (n : Int) : JSString :=
  let k : Int := digits.length
  if k ≤ n ∧ n ≤ 21 then digits ++ List.replicate (n - k).toNat 48
  else if 0 < n ∧ n ≤ 21 then digits.take n.toNat ++ [46] ++ digits.drop n.toNat
  else if -6 < n ∧ n ≤ 0 then [48, 46] ++ List.replicate (-n).toNat 48 ++ digits
  else
    let tail := [101, if 0 ≤ n - 1 then 43 else 45] ++ natDigits (n - 1).natAbs
    if digits.length = 1 then digits ++ tail
    else digits.take 1 ++ [46] ++ digits.drop 1 ++ tail

/-- The digits of `s` without its trailing zeros. -/
def stripZeros : Nat → Nat → Nat
  | 0, s => s
  | fuel + 1, s => if s ≠ 0 ∧ s % 10 = 0 then stripZeros fuel (s / 10) else s

/-- The operation `Number::toString` on the positive double `mant * 2 ^ exp`. -/
def positiveToString (mant : Nat) (exp : Int) : JSString :=
  let i := roundingInterval mant exp
  let r := shortest i (decimalExponent i) 17 1
  let digits := natDigits r.1
  formatDigits (natDigits (stripZeros 400 r.1)) (r.2 + digits.length)

/-- The operation `Number::toString` with radix 10. -/
def toStr : JSDouble → JSString
  | nan => js "NaN"
  | infinity false => js "Infinity"
  | infinity true => js "-Infinity"
  | finite negative mant exp =>
    if mant = 0 then js "0"
    else if negative then 45 :: positiveToString mant exp
    else positiveToString mant exp

/-- The mathematical value of a double. -/
def value : JSDouble → NumValue
  | nan => .nan
  | infinity negative => .infinite negative
  | finite negative mant exp => .finite negative (mant * 2 ^ exp.toNat) (2 ^ (-exp).toNat)

/-- The comparison `x === y` of two doubles: `NaN` equals nothing, and the two
zeros are equal. -/
def strictEq : JSDouble → JSDouble → Bool
  | infinity a, infinity b => a == b
  | finite a m e, finite b n f =>
    (m == 0 && n == 0) ||
      (a == b && m * 2 ^ (e - f).toNat == n * 2 ^ (f - e).toNat)
  | _, _ => false

/-- SameValueZero on doubles: as `===`, but `NaN` equals `NaN`. -/
def sameValueZero : JSDouble → JSDouble → Bool
  | nan, nan => true
  | x, y => strictEq x y

/-- ToBoolean of a double: false on `NaN` and on the zeros. -/
def toBoolean : JSDouble → Bool
  | nan => false
  | infinity _ => true
  | finite _ mant _ => mant != 0

/-- The least shift that brings `n` below `2 ^ 53`, counted from `s`. -/
def shiftFor (n : Nat) : Nat → Nat → Nat
  | 0, s => s
  | fuel + 1, s => if n / 2 ^ s < 2 ^ 53 then s else shiftFor n fuel (s + 1)

/-- The double nearest to the natural number `n` (the one with the even
mantissa on a tie), which is how a decimal literal is read. -/
def ofNat (negative : Bool) (n : Nat) : JSDouble :=
  let s := shiftFor n 1024 0
  let m := n / 2 ^ s
  let rest := n % 2 ^ s
  let up := decide (2 ^ s < 2 * rest) || (2 * rest == 2 ^ s && m % 2 == 1)
  let m1 := if up then m + 1 else m
  let r : Nat × Nat := if m1 = 2 ^ 53 then (2 ^ 52, s + 1) else (m1, s)
  if 971 < r.2 then infinity negative else finite negative r.1 r.2

/-- The double nearest to an integer. -/
def ofInt : Int → JSDouble
  | Int.ofNat n => ofNat false n
  | Int.negSucc n => ofNat true (n + 1)

end JSDouble

instance : JSNumber JSDouble where
  strictEq := JSDouble.strictEq
  sameValueZero := JSDouble.sameValueZero
  toBoolean := JSDouble.toBoolean
  toStr := JSDouble.toStr
  value := JSDouble.value

/-! ## Arrays -/

section Arrays

variable {Num : Type} [JSNumber Num]

/-- The scan of `Array.prototype.indexOf` starting at position `k`. -/
def indexOfFrom (v : JSVal Num) : List (JSVal Num) → Nat → Int
  | [], _ => -1
  | x :: xs, k => if JSVal.strictEq x v then (k : Int) else indexOfFrom v xs (k + 1)

/-- The call `arr.indexOf(v)`: position of the first element strictly equal
to `v`, or `-1`. -/
def indexOf (arr : List (JSVal Num)) (v : JSVal Num) : Int := indexOfFrom v arr 0

/-- The call `arr.includes(v)`. -/
def includes (arr : List (JSVal Num)) (v : JSVal Num) : Bool :=
  arr.any fun x => JSVal.sameValueZero x v

/-- The call `arr.push(v)`. -/
def push (arr : List (JSVal Num)) (v : JSVal Num) : List (JSVal Num) := arr ++ [v]

/-- The call `arr.splice(index, 1)` for `index ≥ 0`: the array that remains. -/
def splice1 (arr : List (JSVal Num)) (index : Int) : List (JSVal Num) :=
  arr.eraseIdx index.toNat

end Arrays

/-! ## `matchDiscovery.js` -/

/-- One element of the array returned by `/api/matches/search`. -/
structure Match (Num : Type) where
  id : JSVal Num
  home_team : JSVal Num
  away_team : JSVal Num
  league : JSVal Num
  time : JSVal Num
  deriving DecidableEq, Repr

/-- The `div` built by `displaySearchResults` for one match: its class name,
its `dataset.matchId`, and the values interpolated into its markup (team
names, league, time, the `data-match-id` of the favourite button and the
class of the icon). -/
structure SearchItem where
  className : JSString
  matchId : JSString
  home_team : JSString
  away_team : JSString
  league : JSString
  time : JSString
  buttonMatchId : JSString
  iconClass : JSString
  deriving DecidableEq, Repr

/-- A `.favorite-match` button as `toggleFavorite` sees it. -/
structure FavoriteButton (Num : Type) where
  /-- The property `btn.dataset.matchId`. -/
  matchId : JSVal Num
  /-- The class name of `btn.querySelector('i')`; `none` when there is no `i`. -/
  icon : Option JSString
  /-- The class list of `btn.closest('.search-item')`; `none` when there is none. -/
  searchItem : Option (List JSString)
  deriving DecidableEq, Repr

/-- One checkbox and label pair appended by `populateLeagueFilters`. -/
structure LeagueFilter where
  checkboxId : JSString
  checkboxValue : JSString
  checked : Bool
  labelFor : JSString
  logoSrc : JSString
  name : JSString
  deriving DecidableEq, Repr

/-- An element of the array returned by `/api/leagues`. -/
structure League (Num : Type) where
  id : JSVal Num
  name : JSVal Num
  logo_url : JSVal Num
  deriving DecidableEq, Repr

/-- The controller object together with the page elements it owns.
`favoriteMatches` is `none` while the property has never been assigned
(reading it yields `undefined`). -/
structure MatchDiscovery (Num : Type) where
  /-- The children of the `.search-results` container. -/
  searchResults : List SearchItem
  /-- Whether `.filter-panel` carries the class `active`. -/
  filterPanelActive : Bool
  /-- The `league-filters` containers appended to `.filter-panel`. -/
  filterPanel : List (List LeagueFilter)
  /-- The property `this.favoriteMatches`. -/
  favoriteMatches : Option (List (JSVal Num))
  deriving DecidableEq, Repr

/-- What a call of `toggleFavorite` leaves behind: the controller, the button,
the array last written to the local-storage key `favoriteMatches` (the
argument of `JSON.stringify`), and the exception thrown, if any. -/
structure ToggleResult (Num : Type) where
  ctl : MatchDiscovery Num
  btn : FavoriteButton Num
  stored : Option (List (JSVal Num))
  error : Option JSError
  deriving DecidableEq, Repr

/-- The method `classList.add('favorite')`. -/
def classListAdd (tokens : List JSString) (t : JSString) : List JSString :=
  if t ∈ tokens then tokens else tokens ++ [t]

/-- The method `classList.remove('favorite')`. -/
def classListRemove (tokens : List JSString) (t : JSString) : List JSString :=
  tokens.filter fun u => u != t

/-- The class list of an element with the given `className`: its tokens,
separated by spaces. -/
def classTokens (className : JSString) : List JSString :=
  (className.splitOn 32).filter fun t => !t.isEmpty

section Discovery

variable {Num : Type} [JSNumber Num]

/-- The statements of `toggleFavorite` after the array has been updated to
`favs`: set the icon class, update the class list of the enclosing item, and
persist the array.  A missing `i` or a missing `.search-item` throws. -/
def finishToggle (ctl : MatchDiscovery Num) (btn : FavoriteButton Num)
    (stored : Option (List (JSVal Num))) (favs : List (JSVal Num))
    (iconClass : JSString) (update : List JSString → List JSString) : ToggleResult Num :=
  let ctl1 : MatchDiscovery Num := { ctl with favoriteMatches := some favs }
  match btn.icon with
  | none => { ctl := ctl1, btn := btn, stored := stored, error := some JSError.TypeError }
  | some _ =>
    let btn1 : FavoriteButton Num := { btn with icon := some iconClass }
    match btn.searchItem with
    | none => { ctl := ctl1, btn := btn1, stored := stored, error := some JSError.TypeError }
    | some tokens =>
      { ctl := ctl1, btn := { btn1 with searchItem := some (update tokens) },
        stored := some favs, error := none }

/-- The method `MatchDiscovery.toggleFavorite(btn)`. -/
def MatchDiscovery.toggleFavorite (ctl : MatchDiscovery Num) (btn : FavoriteButton Num)
    (stored : Option (List (JSVal Num))) : ToggleResult Num :=
  let matchId := btn.matchId
  match ctl.favoriteMatches with
  | none => { ctl := ctl, btn := btn, stored := stored, error := some JSError.TypeError }
  | some favs =>
    let index := indexOf favs matchId
    if index = -1 then
      finishToggle ctl btn stored (push favs matchId) (js "fas fa-star")
        (fun tokens => classListAdd tokens (js "favorite"))
    else
      finishToggle ctl btn stored (splice1 favs index) (js "fas fa-star-o")
        (fun tokens => classListRemove tokens (js "favorite"))

/-- The array the branch of `toggleFavorite` leaves in `this.favoriteMatches`,
as a function of the array before and of the match id. -/
def toggledArray (favs : List (JSVal Num)) (matchId : JSVal Num) : List (JSVal Num) :=
  if indexOf favs matchId = -1 then push favs matchId else splice1 favs (indexOf favs matchId)

/-- Two consecutive calls of `toggleFavorite` on the same button. -/
def toggleTwice (ctl : MatchDiscovery Num) (btn : FavoriteButton Num)
    (stored : Option (List (JSVal Num))) : ToggleResult Num :=
  let r := ctl.toggleFavorite btn stored
  r.ctl.toggleFavorite r.btn r.stored

/-- The item `displaySearchResults` builds for one match, given the favourites
array: `isFavorite` selects the class name and the icon class, and the other
fields are the template holes converted to strings. -/
def renderItem (favs : List (JSVal Num)) (m : Match Num) : SearchItem :=
  let isFavorite := includes favs m.id
  { className := js "search-item " ++ (if isFavorite then js "favorite" else js ""),
    matchId := m.id.toStr,
    home_team := m.home_team.toStr,
    away_team := m.away_team.toStr,
    league := m.league.toStr,
    time := m.time.toStr,
    buttonMatchId := m.id.toStr,
    iconClass := js "fas " ++ (if isFavorite then js "fa-star" else js "fa-star-o") }

/-- The `forEach` of `displaySearchResults`: each match reads
`this.favoriteMatches` (a `TypeError` while it is `undefined`), builds its item
and appends it to the container. -/
def displayLoop (ctl : MatchDiscovery Num) : List (Match Num) → MatchDiscovery Num × Option JSError
  | [] => (ctl, none)
  | m :: ms =>
    match ctl.favoriteMatches with
    | none => (ctl, some JSError.TypeError)
    | some favs =>
      displayLoop { ctl with searchResults := ctl.searchResults ++ [renderItem favs m] } ms

/-- The method `MatchDiscovery.displaySearchResults(matches)`: empty the
container, then render `matches.slice(0, 5)`; `found` is the argument
`matches`. -/
def MatchDiscovery.displaySearchResults (ctl : MatchDiscovery Num) (found : List (Match Num)) :
    MatchDiscovery Num × Option JSError :=
  displayLoop { ctl with searchResults := [] } (found.take 5)

/-- The button of a rendered item as the click listener hands it to
`toggleFavorite`: its `data-match-id` is the interpolated text (the text of a
number or of an identifier free of markup characters is kept as it is), it has
an `i` child and it lies inside its item. -/
def renderedButton (item : SearchItem) : FavoriteButton Num :=
  { matchId := JSVal.str item.buttonMatchId,
    icon := some item.iconClass,
    searchItem := some (classTokens item.className) }

/-- The method `MatchDiscovery.populateLeagueFilters(leagues)`: one checked
checkbox and one label per league, in a new container appended to the filter
panel. -/
def MatchDiscovery.populateLeagueFilters (ctl : MatchDiscovery Num) (leagues : List (League Num)) :
    MatchDiscovery Num :=
  let container := leagues.map fun league =>
    ({ checkboxId := js "league-" ++ league.id.toStr,
       checkboxValue := league.id.toStr,
       checked := true,
       labelFor := js "league-" ++ league.id.toStr,
       logoSrc := if league.logo_url.toBoolean then league.logo_url.toStr else js "",
       name := league.name.toStr } : LeagueFilter)
  { ctl with filterPanel := ctl.filterPanel ++ [container] }

/-- The click listener of the filter button: `classList.toggle('active')`. -/
def MatchDiscovery.filterClick (ctl : MatchDiscovery Num) : MatchDiscovery Num :=
  { ctl with filterPanelActive := !ctl.filterPanelActive }

end Discovery

/-! ### The built-ins used by `handleSearch` -/

/-- The characters `encodeURIComponent` leaves alone: letters, digits and
`- _ . ! ~ * ' ( )`. -/
def isUnreserved (c : Nat) : Bool :=
  (65 ≤ c && c ≤ 90) || (97 ≤ c && c ≤ 122) || (48 ≤ c && c ≤ 57) ||
    c == 45 || c == 95 || c == 46 || c == 33 || c == 126 || c == 42 || c == 39 ||
    c == 40 || c == 41

/-- A leading (high) surrogate code unit. -/
def isLeadSurrogate (c : Nat) : Bool := 0xD800 ≤ c && c ≤ 0xDBFF

/-- A trailing (low) surrogate code unit. -/
def isTrailSurrogate (c : Nat) : Bool := 0xDC00 ≤ c && c ≤ 0xDFFF

/-- The UTF-8 octets of a code point. -/
def utf8Encode (cp : Nat) : List Nat :=
  if cp < 0x80 then [cp]
  else if cp < 0x800 then [0xC0 + cp / 64, 0x80 + cp % 64]
  else if cp < 0x10000 then [0xE0 + cp / 4096, 0x80 + cp / 64 % 64, 0x80 + cp % 64]
  else [0xF0 + cp / 262144, 0x80 + cp / 4096 % 64, 0x80 + cp / 64 % 64, 0x80 + cp % 64]

/-- An upper-case hexadecimal digit as a code unit. -/
def hexDigit (n : Nat) : Nat := if n < 10 then 48 + n else 55 + n

/-- The escape `%XX` of each octet. -/
def percentEncode (octets : List Nat) : JSString :=
  octets.flatMap fun b => [37, hexDigit (b / 16), hexDigit (b % 16)]

/-- The built-in `encodeURIComponent`: unreserved characters are copied, every
other code point is replaced by the escapes of its UTF-8 octets, and an
unpaired surrogate throws a `URIError`. -/
def encodeURIComponent : JSString → Except JSError JSString
  | [] => .ok []
  | [c] =>
    if isUnreserved c then .ok [c]
    else if isLeadSurrogate c || isTrailSurrogate c then .error JSError.URIError
    else .ok (percentEncode (utf8Encode c))
  | c :: d :: rest =>
    if isUnreserved c then (fun t => c :: t) <$> encodeURIComponent (d :: rest)
    else if isLeadSurrogate c then
      if isTrailSurrogate d then
        (fun t => percentEncode (utf8Encode ((c - 0xD800) * 0x400 + (d - 0xDC00) + 0x10000)) ++ t)
          <$> encodeURIComponent rest
      else .error JSError.URIError
    else if isTrailSurrogate c then .error JSError.URIError
    else (fun t => percentEncode (utf8Encode c) ++ t) <$> encodeURIComponent (d :: rest)

/-- The built-in `String.prototype.isWellFormed`: no unpaired surrogate. -/
def isWellFormed : JSString → Bool
  | [] => true
  | [c] => !(isLeadSurrogate c || isTrailSurrogate c)
  | c :: d :: rest =>
    if isLeadSurrogate c then isTrailSurrogate d && isWellFormed rest
    else if isTrailSurrogate c then false
    else isWellFormed (d :: rest)

/-- The built-in `String.prototype.toLowerCase` on the strings whose only cased
characters are the letters `A` to `Z`; every other code unit is kept. -/
def asciiToLowerCase (s : JSString) : JSString :=
  s.map fun c => if 65 ≤ c ∧ c ≤ 90 then c + 32 else c

/-- A call of `fetch`: the URL and the fields of the init object. -/
structure Request (Num : Type) where
  url : JSString
  method : JSString
  headers : List (JSString × JSVal Num)
  body : Option JSString
  deriving DecidableEq, Repr

/-- The call `fetch(url)` without an init object: a `GET` with no extra headers
and no body. -/
def fetchGet {Num : Type} (url : JSString) : Request Num :=
  { url := url, method := js "GET", headers := [], body := none }

/-- What a call of `handleSearch` leaves behind: the controller, the calls of
`fetch` it made, and the exception thrown, if any. -/
structure SearchResult (Num : Type) where
  ctl : MatchDiscovery Num
  requests : List (Request Num)
  error : Option JSError
  deriving DecidableEq, Repr

section Search

variable {Num : Type}

/-- The method `MatchDiscovery.handleSearch(e)`, where `value` is
`e.target.value` and `toLowerCase` is the engine's case mapping.  The render of
the response happens later, in the callback of the request. -/
def MatchDiscovery.handleSearch (toLowerCase : JSString → JSString) (ctl : MatchDiscovery Num)
    (value : JSString) : SearchResult Num :=
  let query := toLowerCase value
  if query.length < 2 then
    { ctl := { ctl with searchResults := [] }, requests := [], error := none }
  else
    match encodeURIComponent query with
    | .error err => { ctl := ctl, requests := [], error := some err }
    | .ok encoded =>
      { ctl := ctl, requests := [fetchGet (js "/api/matches/search?q=" ++ encoded)],
        error := none }

/-- The method `MatchDiscovery.loadFilters()`: the request it sends. -/
def MatchDiscovery.loadFilters : List (Request Num) := [fetchGet (js "/api/leagues")]

/-- The elements the constructor looks up with `querySelector`. -/
structure PageElements where
  searchResults : List SearchItem
  filterPanelActive : Bool
  filterPanel : List (List LeagueFilter)
  deriving DecidableEq, Repr

/-- The constructor of `MatchDiscovery` on a page that holds the five elements
it looks up: it binds them, registers the listeners and calls `loadFilters`,
whose request is returned with the controller.  No statement assigns
`this.favoriteMatches`. -/
def MatchDiscovery.constructor (page : PageElements) : MatchDiscovery Num × List (Request Num) :=
  ({ searchResults := page.searchResults,
     filterPanelActive := page.filterPanelActive,
     filterPanel := page.filterPanel,
     favoriteMatches := none },
   MatchDiscovery.loadFilters)

/-- The controller the constructor returns. -/
def MatchDiscovery.fresh (page : PageElements) : MatchDiscovery Num :=
  (MatchDiscovery.constructor page).1

end Search

/-! ### `debounce` and the timers of the event loop -/

/-- A timer registered with `setTimeout`: its handle, the time at which it is
due, the effect of its callback on the state of the page, and, for the record,
the `this` value and arguments the callback closes over. -/
structure Timer (σ α : Type) where
  id : Nat
  due : Nat
  args : α
  callback : σ → σ

/-- The event loop around a debounced function: the clock, the timer table,
the closure variable `timer` of `debounce` (`none` is `undefined`), the state
of the page, and the record of the callbacks run (time, and the `this` value
and arguments `func` was applied to). -/
structure Debounced (σ α : Type) where
  now : Nat
  nextId : Nat
  timers : List (Timer σ α)
  timer : Option Nat
  state : σ
  invoked : List (Nat × α)

namespace Debounced

variable {σ α : Type}

/-- The environment right after `debounce(func, timeout)` returned, at time
`start`: `let timer;` leaves the variable undefined and no timer is pending. -/
def init (start : Nat) (s : σ) : Debounced σ α :=
  { now := start, nextId := 1, timers := [], timer := none, state := s, invoked := [] }

/-- The built-in `clearTimeout(handle)`: the timer with that handle, if it is
still pending, is removed; an undefined or stale handle does nothing. -/
def clearTimeout (w : Debounced σ α) (handle : Option Nat) : Debounced σ α :=
  match handle with
  | none => w
  | some h => { w with timers := w.timers.filter fun t => t.id != h }

/-- The built-in `setTimeout(callback, timeout)`: registers a timer due
`timeout` ms from now and returns its handle. -/
def setTimeout (w : Debounced σ α) (args : α) (cb : σ → σ) (timeout : Nat) :
    Debounced σ α × Nat :=
  ({ w with nextId := w.nextId + 1,
            timers := w.timers ++
              [{ id := w.nextId, due := w.now + timeout, args := args, callback := cb }] },
   w.nextId)

/-- The event loop reaching time `t`: the timers due by then run in the order
of their due times. -/
def advance (w : Debounced σ α) (t : Nat) : Debounced σ α :=
  let due := (w.timers.filter fun x => x.due ≤ t).insertionSort fun x y => x.due ≤ y.due
  { w with now := max w.now t,
           timers := w.timers.filter fun x => ¬ x.due ≤ t,
           state := due.foldl (fun s x => x.callback s) w.state,
           invoked := w.invoked ++ due.map fun x => (x.due, x.args) }

/-- One timer is pending, armed by a call at time `t` with data `a`: it is the
one the closure variable refers to, its callback applies `func` to `a`, the
clock shows `t`, no callback has run yet and the state of the page is `s`. -/
def Armed (func : α → σ → σ) (timeout : Nat) (w : Debounced σ α) (t : Nat) (a : α) (s : σ) :
    Prop :=
  (∃ id, w.timers = [{ id := id, due := t + timeout, args := a, callback := func a }] ∧
      w.timer = some id) ∧
    w.now = t ∧ w.invoked = [] ∧ w.state = s

end Debounced

section Debounce

variable {σ α : Type}

/-- The function returned by `debounce(func, timeout)` (lines 121 to 126),
called with `this` and `arguments` packed in `a`: clear the pending timer and
arm a new one whose callback is `() => func.apply(context, args)`.  The
declaration on line 119 starts with the keyword `delete` where `function` is
meant; what is embedded is the body, as the function that line is meant to
declare. -/
def debounce (func : α → σ → σ) (timeout : Nat) (w : Debounced σ α) (a : α) : Debounced σ α :=
  let w1 := w.clearTimeout w.timer
  let r := w1.setTimeout a (func a) timeout
  { r.1 with timer := some r.2 }

/-- A call of the debounced function arriving at time `c.1` with data `c.2`. -/
def callAt (func : α → σ → σ) (timeout : Nat) (w : Debounced σ α) (c : Nat × α) :
    Debounced σ α :=
  debounce func timeout (w.advance c.1) c.2

/-- A sequence of timed calls of the debounced function, followed by the
passing of time up to `tEnd`. -/
def debounceRun (func : α → σ → σ) (timeout : Nat) (start : Nat) (s : σ)
    (calls : List (Nat × α)) (tEnd : Nat) : Debounced σ α :=
  (calls.foldl (callAt func timeout) (Debounced.init start s)).advance tEnd

end Debounce

/-- Each call comes not before and less than `timeout` ms after the one before
it, the first of them after a call at time `prev`. -/
def QuickCallsFrom {α : Type} (timeout : Nat) (prev : Nat) : List (Nat × α) → Prop
  | [] => True
  | c :: cs => prev ≤ c.1 ∧ c.1 < prev + timeout ∧ QuickCallsFrom timeout c.1 cs

/-- Calls in quick succession: the first one not before `start`, each later one
not before and less than `timeout` ms after the previous one. -/
def QuickCalls {α : Type} (timeout : Nat) (start : Nat) : List (Nat × α) → Prop
  | [] => True
  | c :: cs => start ≤ c.1 ∧ QuickCallsFrom timeout c.1 cs

/-- The search box with its debounced `input` listener: the current value of
the input, the controller, and the calls of `fetch` made so far. -/
structure SearchBox (Num : Type) where
  value : JSString
  ctl : MatchDiscovery Num
  fetches : List (Request Num)
  deriving DecidableEq, Repr

section SearchBox

variable {Num : Type}

/-- The listener `this.handleSearch.bind(this)` run on an `input` event of the
search box: `e.target.value` is the value the input has when the listener
runs. -/
def SearchBox.onInput (toLowerCase : JSString → JSString) (_e : Unit) (b : SearchBox Num) :
    SearchBox Num :=
  let r := b.ctl.handleSearch toLowerCase b.value
  { b with ctl := r.ctl, fetches := b.fetches ++ r.requests }

/-- The user changes the text of the search box to `c.2` at time `c.1`; the
browser then fires `input`, which calls the listener registered by
`initEventListeners`, `debounce(this.handleSearch.bind(this), 300)`. -/
def typeAt (toLowerCase : JSString → JSString) (w : Debounced (SearchBox Num) Unit)
    (c : Nat × JSString) : Debounced (SearchBox Num) Unit :=
  let w1 := w.advance c.1
  debounce (SearchBox.onInput toLowerCase) 300
    { w1 with state := { w1.state with value := c.2 } } ()

/-- A sequence of timed edits of the search box, then the passing of time up
to `tEnd`. -/
def typing (toLowerCase : JSString → JSString) (b : SearchBox Num) (edits : List (Nat × JSString))
    (tEnd : Nat) : Debounced (SearchBox Num) Unit :=
  (edits.foldl (typeAt toLowerCase) (Debounced.init 0 b)).advance tEnd

end SearchBox

/-! ## `betting.js` -/

/-- The parsed JSON body of the response to a quick bet: the three fields the
script reads (`undefined` when absent) and the remaining ones. -/
structure Payload (Num : Type) where
  success : JSVal Num
  new_balance : JSVal Num
  error : JSVal Num
  rest : List (JSString × JSVal Num)
  deriving DecidableEq, Repr

/-- A call `showNotification(message, type)`; `kind` is `undefined` when the
second argument is omitted. -/
structure Notification (Num : Type) where
  message : JSVal Num
  kind : JSVal Num
  deriving DecidableEq, Repr

/-- The part of the page `betting.js` acts on: the text of every
`.user-balance` element, in document order, and the notifications shown. -/
structure BettingPage (Num : Type) where
  balances : List JSString
  notifications : List (Notification Num)
  deriving DecidableEq, Repr

/-- A `.bet-btn` element: its `data-match-id`, `data-bet-type` and `data-odds`
as read through `dataset`. -/
structure BetButton (Num : Type) where
  matchId : JSVal Num
  betType : JSVal Num
  odds : JSVal Num
  deriving DecidableEq, Repr

/-- The target of a click: a node without `closest` (the document itself), or
an element together with what `closest('.bet-btn')` returns for it. -/
inductive ClickTarget (Num : Type) where
  | nonElement
  | element (closestBetBtn : Option (BetButton Num))
  deriving DecidableEq, Repr

/-- A click event. -/
structure ClickEvent (Num : Type) where
  shiftKey : Bool
  target : ClickTarget Num
  deriving DecidableEq, Repr

/-- What the quick-bet click listener does with an event: whether it called
`preventDefault`, the argument triples of its calls of `placeQuickBet`, and
the exception thrown, if any. -/
structure ClickResult (Num : Type) where
  defaultPrevented : Bool
  calls : List (JSVal Num × JSVal Num × JSVal Num)
  error : Option JSError
  deriving DecidableEq, Repr

/-- What a call of `placeQuickBet` amounts to once the response has arrived:
the request sent, the page afterwards, and how the returned promise settled. -/
structure QuickBetResult (Num : Type) where
  request : Request Num
  page : BettingPage Num
  settled : Except JSError (Payload Num)

section Betting

variable {Num : Type} [JSNumber Num]

/-- The request built by `placeQuickBet(matchId, betType, odds)`; `getCookie`
is the page utility of that name. -/
def placeQuickBetRequest (getCookie : JSString → JSVal Num) (matchId betType odds : JSVal Num) :
    Request Num :=
  { url := js "/matches/bet/" ++ matchId.toStr ++ js "/",
    method := js "POST",
    headers :=
      [(js "X-CSRFToken", getCookie (js "csrftoken")),
       (js "Content-Type", JSVal.str (js "application/json")),
       (js "X-Requested-With", JSVal.str (js "XMLHttpRequest")),
       (js "X-Quick-Bet", JSVal.str (js "true")),
       (js "X-Bet-Type", betType),
       (js "X-Odds", odds)],
    body := some (js "\x7b\x7d") }

/-- The method call `newBalance.toFixed(2)`: defined on numbers; on `undefined`
and `null` the property read throws, on the other values `toFixed` is not a
function. -/
def toFixed2 : JSVal Num → Except JSError JSString
  | JSVal.num x => .ok (numberToFixed2 (JSNumber.value x) (JSNumber.toStr x))
  | _ => .error JSError.TypeError

/-- The `forEach` of `updateBalance` over the `.user-balance` elements. -/
def updateBalanceLoop (newBalance : JSVal Num) : List JSString → List JSString × Option JSError
  | [] => ([], none)
  | el :: els =>
    match toFixed2 newBalance with
    | .error err => (el :: els, some err)
    | .ok text =>
      let r := updateBalanceLoop newBalance els
      (text :: r.1, r.2)

/-- The function `updateBalance(newBalance)`. -/
def updateBalance (page : BettingPage Num) (newBalance : JSVal Num) :
    BettingPage Num × Option JSError :=
  let r := updateBalanceLoop newBalance page.balances
  ({ page with balances := r.1 }, r.2)

/-- The page utility `showNotification(message, type)`. -/
def showNotification (page : BettingPage Num) (message kind : JSVal Num) : BettingPage Num :=
  { page with notifications := page.notifications ++ [{ message := message, kind := kind }] }

/-- The second `then` callback of `placeQuickBet`, applied to the parsed
payload: the page afterwards and the value returned, or the exception. -/
def onBetResponse (page : BettingPage Num) (data : Payload Num) :
    BettingPage Num × Except JSError (Payload Num) :=
  if data.success.toBoolean then
    let page1 := showNotification page (JSVal.str (js "Bet placed successfully!")) JSVal.undefined
    match updateBalance page1 data.new_balance with
    | (page2, some err) => (page2, .error err)
    | (page2, none) => (page2, .ok data)
  else
    let message := if data.error.toBoolean then data.error else JSVal.str (js "Failed to place bet")
    (showNotification page message (JSVal.str (js "error")), .ok data)

/-- The function `placeQuickBet(matchId, betType, odds)`; `respond` gives, for
the request sent, the parsed body of the response, or the failure of the
request or of `response.json()`, which the promise chain passes on. -/
def placeQuickBet (getCookie : JSString → JSVal Num)
    (respond : Request Num → Except JSError (Payload Num)) (page : BettingPage Num)
    (matchId betType odds : JSVal Num) : QuickBetResult Num :=
  let request := placeQuickBetRequest getCookie matchId betType odds
  match respond request with
  | .error err => { request := request, page := page, settled := .error err }
  | .ok data =>
    let r := onBetResponse page data
    { request := request, page := r.1, settled := r.2 }

/-- The click listener registered by `setupQuickBetListeners`. -/
def setupQuickBetListeners (e : ClickEvent Num) : ClickResult Num :=
  if e.shiftKey then
    match e.target with
    | .nonElement => { defaultPrevented := false, calls := [], error := some JSError.TypeError }
    | .element none => { defaultPrevented := false, calls := [], error := none }
    | .element (some btn) =>
      { defaultPrevented := true, calls := [(btn.matchId, btn.betType, btn.odds)], error := none }
  else
    { defaultPrevented := false, calls := [], error := none }

/-- The requests sent by the calls of `placeQuickBet` the click listener makes
for an event. -/
def quickBetRequests (getCookie : JSString → JSVal Num) (e : ClickEvent Num) :
    List (Request Num) :=
  (setupQuickBetListeners e).calls.map fun c => placeQuickBetRequest getCookie c.1 c.2.1 c.2.2

end Betting

/-! ## Integer literals -/

/-- An integer literal of a script or of a JSON text, read as the double it
denotes. -/
instance : JSNumber Int where
  strictEq x y := JSDouble.strictEq (JSDouble.ofInt x) (JSDouble.ofInt y)
  sameValueZero x y := JSDouble.sameValueZero (JSDouble.ofInt x) (JSDouble.ofInt y)
  toBoolean x := JSDouble.toBoolean (JSDouble.ofInt x)
  toStr x := JSDouble.toStr (JSDouble.ofInt x)
  value x := JSDouble.value (JSDouble.ofInt x)

/-! ## Sample inputs -/

/-- A controller on a page with an empty results container and a closed,
empty filter panel, whose `favoriteMatches` is the given array. -/
def controllerWith (favs : Option (List (JSVal Int))) : MatchDiscovery Int :=
  { searchResults := [], filterPanelActive := false, filterPanel := [], favoriteMatches := favs }

/-- The favourite button of a rendered, not yet favourite item with the given
`data-match-id`. -/
def starButton (id : JSString) : FavoriteButton Int :=
  { matchId := JSVal.str id, icon := some (js "fas fa-star-o"),
    searchItem := some [js "search-item"] }

/-- A search result with the given id. -/
def sampleMatch (id : JSVal Int) : Match Int :=
  { id := id, home_team := JSVal.str (js "Arsenal"), away_team := JSVal.str (js "Chelsea"),
    league := JSVal.str (js "Premier League"), time := JSVal.str (js "20:45") }

/-- A page with two balance displays and no notification yet. -/
def samplePage : BettingPage Int :=
  { balances := [js "10.00", js "10.00"], notifications := [] }

/-- The search box before anything is typed. -/
def sampleSearchBox : SearchBox Int :=
  { value := [], ctl := controllerWith none, fetches := [] }

/-- A bet button with `data-match-id="7"`, `data-bet-type="win"` and
`data-odds="1.5"`. -/
def sampleBetButton : BetButton Int :=
  { matchId := JSVal.str (js "7"), betType := JSVal.str (js "win"), odds := JSVal.str (js "1.5") }

/-- A click inside the sample bet button, with or without the shift key. -/
def sampleClick (shift : Bool) : ClickEvent Int :=
  { shiftKey := shift, target := ClickTarget.element (some sampleBetButton) }

/-- The payload of an accepted bet that leaves a balance of 25. -/
def acceptedPayload : Payload Int :=
  { success := JSVal.bool true, new_balance := JSVal.num 25, error := JSVal.undefined, rest := [] }

/-- The payload of an accepted bet that leaves a balance of `10^21`. -/
def hugePayload : Payload Int :=
  { success := JSVal.bool true, new_balance := JSVal.num 1000000000000000000000,
    error := JSVal.undefined, rest := [] }

/-- The payload of a refused bet. -/
def refusedPayload : Payload Int :=
  { success := JSVal.bool false, new_balance := JSVal.undefined,
    error := JSVal.str (js "Insufficient funds"), rest := [] }

/-- The payload of an accepted bet that carries no `new_balance`. -/
def incompletePayload : Payload Int :=
  { success := JSVal.bool true, new_balance := JSVal.undefined, error := JSVal.undefined,
    rest := [] }

/-- A cookie jar holding only `csrftoken=abc`. -/
def sampleCookie (name : JSString) : JSVal Int :=
  if name = js "csrftoken" then JSVal.str (js "abc") else JSVal.null

/-! ## Arrays and `toggleFavorite` -/

section
variable {Num : Type} [JSNumber Num]

theorem strictEq_str_iff (x : JSVal Num) (s : JSString) :
    JSVal.strictEq x (JSVal.str s) = true ↔ x = JSVal.str s := by
  cases x <;> simp [JSVal.strictEq]

theorem strictEq_dataset_iff (x v : JSVal Num) (hv : v.IsDatasetValue) :
    JSVal.strictEq x v = true ↔ x = v := by
  cases v <;> cases x <;> simp_all [JSVal.strictEq, JSVal.IsDatasetValue]

theorem indexOfFrom_none (v : JSVal Num) (l : List (JSVal Num)) (k : Nat)
    (h : ∀ x ∈ l, JSVal.strictEq x v = false) : indexOfFrom v l k = -1 := by
  induction l generalizing k with
  | nil => rfl
  | cons a t ih =>
    have ha : JSVal.strictEq a v = false := h a (List.mem_cons_self _ _)
    simp only [indexOfFrom, ha, Bool.false_eq_true, if_false]
    exact ih (k + 1) fun x hx => h x (List.mem_cons_of_mem _ hx)

theorem indexOfFrom_some (v : JSVal Num) (l : List (JSVal Num)) (k : Nat)
    (h : ∃ x ∈ l, JSVal.strictEq x v = true) :
    ∃ i : Nat, indexOfFrom v l k = ((k + i : Nat) : Int) ∧
      l.eraseIdx i = l.eraseP (fun x => JSVal.strictEq x v) := by
  induction l generalizing k with
  | nil => simp at h
  | cons a t ih =>
    by_cases ha : JSVal.strictEq a v = true
    · exact ⟨0, by simp [indexOfFrom, ha], by simp [List.eraseP_cons, ha]⟩
    · have hex : ∃ x ∈ t, JSVal.strictEq x v = true := by
        obtain ⟨x, hx, hp⟩ := h
        rcases List.mem_cons.1 hx with rfl | hx
        · exact absurd hp ha
        · exact ⟨x, hx, hp⟩
      obtain ⟨i, hi, he⟩ := ih (k + 1) hex
      refine ⟨i + 1, ?_, ?_⟩
      · have ha2 : JSVal.strictEq a v = false := by simpa using ha
        simp only [indexOfFrom, ha2, Bool.false_eq_true, if_false]
        rw [hi]; push_cast; omega
      · simp [List.eraseP_cons, ha, he]

theorem indexOf_eq_neg_one_iff (v : JSVal Num) (l : List (JSVal Num)) :
    indexOf l v = -1 ↔ ∀ x ∈ l, JSVal.strictEq x v = false := by
  constructor
  · intro h x hx
    by_contra hp
    obtain ⟨i, hi, _⟩ := indexOfFrom_some v l 0 ⟨x, hx, by simpa using hp⟩
    unfold indexOf at h
    rw [hi] at h
    omega
  · exact indexOfFrom_none v l 0

theorem splice1_indexOf (v : JSVal Num) (l : List (JSVal Num)) (h : indexOf l v ≠ -1) :
    splice1 l (indexOf l v) = l.eraseP (fun x => JSVal.strictEq x v) := by
  have hex : ∃ x ∈ l, JSVal.strictEq x v = true := by
    by_contra hne
    apply h
    rw [indexOf_eq_neg_one_iff]
    intro x hx
    by_contra hp
    exact hne ⟨x, hx, by simpa using hp⟩
  obtain ⟨i, hi, he⟩ := indexOfFrom_some v l 0 hex
  unfold splice1 indexOf
  rw [hi]
  simpa using he

/-- The array left by a call of `toggleFavorite`, whatever the button looks like. -/
theorem toggleFavorite_favoriteMatches (ctl : MatchDiscovery Num) (btn : FavoriteButton Num)
    (stored : Option (List (JSVal Num))) (favs : List (JSVal Num))
    (h : ctl.favoriteMatches = some favs) :
    (ctl.toggleFavorite btn stored).ctl.favoriteMatches = some (toggledArray favs btn.matchId) ∧
    (ctl.toggleFavorite btn stored).btn.matchId = btn.matchId := by
  unfold MatchDiscovery.toggleFavorite finishToggle toggledArray
  rw [h]
  by_cases hi : indexOf favs btn.matchId = -1 <;> simp only [hi, if_true, if_false] <;>
    cases btn.icon <;> cases btn.searchItem <;> simp

theorem toggledArray_absent (favs : List (JSVal Num)) (v : JSVal Num)
    (h : ∀ x ∈ favs, JSVal.strictEq x v = false) : toggledArray favs v = favs ++ [v] := by
  unfold toggledArray
  rw [if_pos ((indexOf_eq_neg_one_iff v favs).2 h)]
  rfl

theorem toggledArray_present (favs : List (JSVal Num)) (v : JSVal Num)
    (h : ∃ x ∈ favs, JSVal.strictEq x v = true) :
    toggledArray favs v = favs.eraseP fun x => JSVal.strictEq x v := by
  have hne : indexOf favs v ≠ -1 := by
    intro hi
    obtain ⟨x, hx, hp⟩ := h
    have := (indexOf_eq_neg_one_iff v favs).1 hi x hx
    rw [this] at hp
    exact Bool.false_ne_true hp
  unfold toggledArray
  rw [if_neg hne]
  exact splice1_indexOf v favs hne

theorem toggleTwice_favoriteMatches (ctl : MatchDiscovery Num) (btn : FavoriteButton Num)
    (stored : Option (List (JSVal Num))) (favs : List (JSVal Num))
    (h : ctl.favoriteMatches = some favs) :
    (toggleTwice ctl btn stored).ctl.favoriteMatches =
      some (toggledArray (toggledArray favs btn.matchId) btn.matchId) := by
  unfold toggleTwice
  obtain ⟨h1, h2⟩ := toggleFavorite_favoriteMatches ctl btn stored favs h
  have h3 := (toggleFavorite_favoriteMatches (ctl.toggleFavorite btn stored).ctl
    (ctl.toggleFavorite btn stored).btn (ctl.toggleFavorite btn stored).stored _ h1).1
  rw [h2] at h3
  exact h3

theorem toggledArray_twice_perm (favs : List (JSVal Num)) (v : JSVal Num)
    (hv : v.IsDatasetValue)
    (hcount : favs.countP (fun x => JSVal.strictEq x v) ≤ 1) :
    (toggledArray (toggledArray favs v) v).Perm favs := by
  have hvv : JSVal.strictEq v v = true := (strictEq_dataset_iff v v hv).2 rfl
  by_cases hex : ∃ x ∈ favs, JSVal.strictEq x v = true
  · obtain ⟨x, hx, hp⟩ := hex
    obtain ⟨a, l₁, l₂, h1, h2, h3, h4⟩ :=
      @List.exists_of_eraseP _ (fun x => JSVal.strictEq x v) _ _ hx hp
    have ha : a = v := (strictEq_dataset_iff a v hv).1 h2
    subst ha
    rw [toggledArray_present favs a ⟨x, hx, hp⟩, h4]
    have h5 : ∀ b ∈ l₂, JSVal.strictEq b a = false := by
      rw [h3] at hcount
      simp only [List.countP_append, List.countP_cons, h2, if_true] at hcount
      have hz : List.countP (fun x => JSVal.strictEq x a) l₂ = 0 := by omega
      intro b hb
      have := (List.countP_eq_zero.1 hz) b hb
      simpa using this
    have h6 : ∀ b ∈ l₁ ++ l₂, JSVal.strictEq b a = false := by
      intro b hb
      rcases List.mem_append.1 hb with hb | hb
      · simpa using h1 b hb
      · exact h5 b hb
    rw [toggledArray_absent _ a h6, h3]
    rw [List.append_assoc]
    exact List.Perm.append_left l₁ (List.perm_append_singleton a l₂)
  · have hno : ∀ x ∈ favs, JSVal.strictEq x v = false := by
      intro x hx
      by_contra hp
      exact hex ⟨x, hx, by simpa using hp⟩
    rw [toggledArray_absent favs v hno]
    rw [toggledArray_present (favs ++ [v]) v ⟨v, by simp, hvv⟩]
    rw [List.eraseP_append_right _ (by intro b hb; simp [hno b hb])]
    simp [List.eraseP_cons, hvv]


theorem toggledArray_nodup (favs : List (JSVal Num)) (v : JSVal Num) (hv : v.IsDatasetValue)
    (hnd : favs.Nodup) :
    (toggledArray favs v).Nodup ∧ (v ∈ favs → v ∉ toggledArray favs v) ∧
      (v ∉ favs → toggledArray favs v = favs ++ [v]) := by
  by_cases hex : ∃ x ∈ favs, JSVal.strictEq x v = true
  · have hmem : v ∈ favs := by
      obtain ⟨x, hx, hp⟩ := hex
      rwa [(strictEq_dataset_iff x v hv).1 hp] at hx
    rw [toggledArray_present favs v hex]
    refine ⟨hnd.eraseP _, fun _ hin => ?_, fun hn => absurd hmem hn⟩
    obtain ⟨x, hx, hp⟩ := hex
    obtain ⟨a, l₁, l₂, h1, h2, h3, h4⟩ :=
      @List.exists_of_eraseP _ (fun x => JSVal.strictEq x v) _ _ hx hp
    have ha : a = v := (strictEq_dataset_iff a v hv).1 h2
    subst ha
    rw [h3] at hnd
    rw [h4] at hin
    have hnot : a ∉ l₁ ++ l₂ := by
      have := List.nodup_middle.1 hnd
      exact (List.nodup_cons.1 this).1
    exact hnot hin
  · have hno : ∀ x ∈ favs, JSVal.strictEq x v = false := by
      intro x hx
      by_contra hp
      exact hex ⟨x, hx, by simpa using hp⟩
    have hmem : v ∉ favs := fun hin => by
      have := hno v hin
      rw [(strictEq_dataset_iff v v hv).2 rfl] at this
      exact Bool.noConfusion this
    rw [toggledArray_absent favs v hno]
    refine ⟨?_, fun hin => absurd hin hmem, fun _ => rfl⟩
    rw [List.nodup_append]
    refine ⟨hnd, List.nodup_singleton v, ?_⟩
    intro a ha hb
    rw [List.mem_singleton] at hb
    exact hmem (hb ▸ ha)

/-- C1 (amended): when the favourites array holds the match id at most once,
two calls of `toggleFavorite` in a row on a button carrying that
`data-match-id` leave an array that is a rearrangement of the original one, so
with exactly the same members; this holds whether or not the button has an
icon and an enclosing item. -/
theorem toggleFavorite_twice_restores (ctl : MatchDiscovery Num) (btn : FavoriteButton Num)
    (stored : Option (List (JSVal Num))) (favs : List (JSVal Num)) (id : JSString)
    (hfavs : ctl.favoriteMatches = some favs) (hid : btn.matchId = JSVal.str id)
    (honce : favs.countP (fun x => JSVal.strictEq x (JSVal.str id)) ≤ 1) :
    ∃ favs', (toggleTwice ctl btn stored).ctl.favoriteMatches = some favs' ∧
      favs'.Perm favs ∧ ∀ x, x ∈ favs' ↔ x ∈ favs := by
  have hperm := toggledArray_twice_perm favs (JSVal.str id) trivial honce
  refine ⟨_, ?_, hperm, fun x => hperm.mem_iff⟩
  rw [toggleTwice_favoriteMatches ctl btn stored favs hfavs, hid]

/-- C1 (amended), evaluated: the id `7` is toggled twice on the array
`["3", "7"]`. -/
theorem toggleFavorite_twice_restores_witness :
    [JSVal.str (js "3"), JSVal.str (js "7")].countP
        (fun x : JSVal Int => JSVal.strictEq x (JSVal.str (js "7"))) ≤ 1 ∧
      ∃ favs', (toggleTwice (controllerWith (some [JSVal.str (js "3"), JSVal.str (js "7")]))
          (starButton (js "7")) none).ctl.favoriteMatches = some favs' ∧
        favs'.Perm [JSVal.str (js "3"), JSVal.str (js "7")] ∧
        ∀ x, x ∈ favs' ↔ x ∈ [JSVal.str (js "3"), JSVal.str (js "7")] :=
  ⟨by decide, toggleFavorite_twice_restores _ _ _ _ (js "7") rfl rfl (by decide)⟩

/-- C1 as stated fails on an array that holds the id twice: from `["7", "7"]`
two calls of `toggleFavorite` on a button with `data-match-id="7"` remove both
entries, and `"7"` is no longer a member. -/
theorem toggleFavorite_twice_loses_duplicate :
    (toggleTwice (controllerWith (some [JSVal.str (js "7"), JSVal.str (js "7")]))
        (starButton (js "7")) none).ctl.favoriteMatches = some [] ∧
      ¬ ∀ x : JSVal Int, x ∈ ([] : List (JSVal Int)) ↔
          x ∈ [JSVal.str (js "7"), JSVal.str (js "7")] := by
  refine ⟨by decide, fun h => ?_⟩
  have := (h (JSVal.str (js "7"))).2 (List.mem_cons_self _ _)
  exact List.not_mem_nil _ this

/-- C9 (amended): `toggleFavorite` pushes the match id only when `indexOf` did
not find it, so an array without duplicates stays without duplicates: an id
that was a member is removed, an id that was not is appended. -/
theorem toggleFavorite_preserves_nodup (ctl : MatchDiscovery Num) (btn : FavoriteButton Num)
    (stored : Option (List (JSVal Num))) (favs : List (JSVal Num))
    (hfavs : ctl.favoriteMatches = some favs) (hid : btn.matchId.IsDatasetValue)
    (hnd : favs.Nodup) :
    ∃ favs', (ctl.toggleFavorite btn stored).ctl.favoriteMatches = some favs' ∧ favs'.Nodup ∧
      (btn.matchId ∈ favs → btn.matchId ∉ favs') ∧
      (btn.matchId ∉ favs → favs' = favs ++ [btn.matchId]) :=
  ⟨_, (toggleFavorite_favoriteMatches ctl btn stored favs hfavs).1,
    toggledArray_nodup favs btn.matchId hid hnd⟩

/-- C9 (amended), evaluated: toggling `7` on `["3", "7"]` and on `["3"]`. -/
theorem toggleFavorite_preserves_nodup_witness :
    (∃ favs', ((controllerWith (some [JSVal.str (js "3"), JSVal.str (js "7")])).toggleFavorite
          (starButton (js "7")) none).ctl.favoriteMatches = some favs' ∧ favs'.Nodup ∧
        ((starButton (js "7")).matchId ∈ [JSVal.str (js "3"), JSVal.str (js "7")] →
          (starButton (js "7")).matchId ∉ favs') ∧
        ((starButton (js "7")).matchId ∉ [JSVal.str (js "3"), JSVal.str (js "7")] →
          favs' = [JSVal.str (js "3"), JSVal.str (js "7")] ++ [(starButton (js "7")).matchId])) ∧
      ((controllerWith (some [JSVal.str (js "3")])).toggleFavorite
          (starButton (js "7")) none).ctl.favoriteMatches =
        some [JSVal.str (js "3"), JSVal.str (js "7")] :=
  ⟨toggleFavorite_preserves_nodup _ _ _ _ rfl trivial (by decide), by decide⟩

/-- C9 as stated fails: there is no array without duplicates and no
`data-match-id` for which the array left by `toggleFavorite` holds an
identifier twice. -/
theorem toggleFavorite_no_duplicate_created :
    ¬ ∃ (N : Type) (_ : JSNumber N) (ctl : MatchDiscovery N) (btn : FavoriteButton N)
        (stored : Option (List (JSVal N))) (favs favs' : List (JSVal N)),
        ctl.favoriteMatches = some favs ∧ favs.Nodup ∧ btn.matchId.IsDatasetValue ∧
          (ctl.toggleFavorite btn stored).ctl.favoriteMatches = some favs' ∧ ¬ favs'.Nodup := by
  rintro ⟨N, _, ctl, btn, stored, favs, favs', hfavs, hnd, hid, hres, hdup⟩
  rw [(toggleFavorite_favoriteMatches ctl btn stored favs hfavs).1] at hres
  cases hres
  exact hdup (toggledArray_nodup favs btn.matchId hid hnd).1

end

/-! ## `handleSearch` -/

theorem unreserved_not_surrogate (c : Nat) (h : isUnreserved c = true) :
    isLeadSurrogate c = false ∧ isTrailSurrogate c = false := by
  simp only [isUnreserved, isLeadSurrogate, isTrailSurrogate, Bool.or_eq_true, Bool.and_eq_true,
    decide_eq_true_eq, beq_iff_eq, Bool.and_eq_false_iff, decide_eq_false_iff_not] at h ⊢
  omega

theorem encodeURIComponent_wellFormed (s : JSString) :
    (isWellFormed s = true → ∃ enc, encodeURIComponent s = .ok enc) ∧
    (isWellFormed s = false → encodeURIComponent s = .error JSError.URIError) := by
  induction s using encodeURIComponent.induct with
  | case1 => simp [isWellFormed, encodeURIComponent]
  | case2 c h =>
    have := unreserved_not_surrogate c h
    simp [isWellFormed, encodeURIComponent, h, this]
  | case3 c h1 h2 =>
    simp [isWellFormed, encodeURIComponent, h1, h2]
  | case4 c h1 h2 =>
    simp [isWellFormed, encodeURIComponent, h1, h2]
  | case5 c d rest h ih =>
    have hs := unreserved_not_surrogate c h
    simp only [isWellFormed, encodeURIComponent, h, hs, if_true, if_false, Bool.false_eq_true]
    refine ⟨fun hw => ?_, fun hw => ?_⟩
    · obtain ⟨enc, he⟩ := ih.1 hw
      exact ⟨c :: enc, by rw [he]; rfl⟩
    · rw [ih.2 hw]; rfl
  | case6 c d rest h1 h2 h3 ih =>
    simp only [isWellFormed, encodeURIComponent, h1, h2, h3, if_true, if_false, Bool.true_and]
    refine ⟨fun hw => ?_, fun hw => ?_⟩
    · obtain ⟨enc, he⟩ := ih.1 hw
      exact ⟨_, by rw [he]; rfl⟩
    · rw [ih.2 hw]; rfl
  | case7 c d rest h1 h2 h3 =>
    simp [isWellFormed, encodeURIComponent, h1, h2, h3]
  | case8 c d rest h1 h2 h3 =>
    simp [isWellFormed, encodeURIComponent, h1, h2, h3]
  | case9 c d rest h1 h2 h3 ih =>
    simp only [isWellFormed, encodeURIComponent, h1, h2, h3, if_true, if_false]
    refine ⟨fun hw => ?_, fun hw => ?_⟩
    · obtain ⟨enc, he⟩ := ih.1 hw
      exact ⟨_, by rw [he]; rfl⟩
    · rw [ih.2 hw]; rfl

section
variable {Num : Type}

/-- C4 (amended): with `query` the lower-cased input value, `handleSearch`
empties the results container and sends nothing when `query.length < 2`; when
`query.length` is at least 2 and `query` has no unpaired surrogate it sends
exactly one `GET`, to `/api/matches/search?q=` followed by
`encodeURIComponent(query)`, and leaves the results alone; when `query.length`
is at least 2 and `query` has an unpaired surrogate, `encodeURIComponent`
throws a `URIError`, nothing is sent and the results are left alone.  So a
request is sent exactly when the length is at least 2 and the query is well
formed. -/
theorem handleSearch_requests (toLowerCase : JSString → JSString) (ctl : MatchDiscovery Num)
    (value : JSString) :
    (List.length (toLowerCase value) < 2 →
      ctl.handleSearch toLowerCase value =
        { ctl := { ctl with searchResults := [] }, requests := [], error := none }) ∧
    (2 ≤ List.length (toLowerCase value) → isWellFormed (toLowerCase value) = true →
      ∃ encoded, encodeURIComponent (toLowerCase value) = .ok encoded ∧
        ctl.handleSearch toLowerCase value =
          { ctl := ctl, requests := [fetchGet (js "/api/matches/search?q=" ++ encoded)],
            error := none }) ∧
    (2 ≤ List.length (toLowerCase value) → isWellFormed (toLowerCase value) = false →
      ctl.handleSearch toLowerCase value =
        { ctl := ctl, requests := [], error := some JSError.URIError }) ∧
    ((ctl.handleSearch toLowerCase value).requests ≠ [] ↔
      2 ≤ List.length (toLowerCase value) ∧ isWellFormed (toLowerCase value) = true) := by
  have hw := encodeURIComponent_wellFormed (toLowerCase value)
  refine ⟨fun hlt => ?_, fun hge hwf => ?_, fun hge hwf => ?_, ?_⟩
  · simp [MatchDiscovery.handleSearch, hlt]
  · obtain ⟨enc, he⟩ := hw.1 hwf
    refine ⟨enc, he, ?_⟩
    simp [MatchDiscovery.handleSearch, Nat.not_lt.2 hge, he]
  · simp [MatchDiscovery.handleSearch, Nat.not_lt.2 hge, hw.2 hwf]
  · by_cases hlt : List.length (toLowerCase value) < 2
    · simp [MatchDiscovery.handleSearch, hlt]
    · cases hwf : isWellFormed (toLowerCase value)
      · simp [MatchDiscovery.handleSearch, hlt, hw.2 hwf]
      · obtain ⟨enc, he⟩ := hw.1 hwf
        simp [MatchDiscovery.handleSearch, hlt, he]
        omega

end

/-- C4 (amended), evaluated: `ARS` is searched as `ars`, the single letter `A`
clears the results, and a value with an unpaired surrogate throws. -/
theorem handleSearch_requests_witness :
    (∃ encoded, encodeURIComponent (asciiToLowerCase (js "ARS")) = .ok encoded ∧
      (controllerWith none).handleSearch asciiToLowerCase (js "ARS") =
        { ctl := controllerWith none,
          requests := [fetchGet (js "/api/matches/search?q=" ++ encoded)], error := none }) ∧
    (controllerWith none).handleSearch asciiToLowerCase (js "A") =
        { ctl := { controllerWith none with searchResults := [] }, requests := [],
          error := none } ∧
    (controllerWith none).handleSearch asciiToLowerCase [0xD800, 0x61] =
        { ctl := controllerWith none, requests := [], error := some JSError.URIError } :=
  ⟨(handleSearch_requests asciiToLowerCase (controllerWith none) (js "ARS")).2.1
      (by decide) (by decide),
    (handleSearch_requests asciiToLowerCase (controllerWith none) (js "A")).1 (by decide),
    (handleSearch_requests asciiToLowerCase (controllerWith none) [0xD800, 0x61]).2.2.1
      (by decide) (by decide)⟩

/-- C4 as stated fails on a value with an unpaired surrogate: the lower-cased
value `\uD800a` has length 2, yet `handleSearch` sends no request, because
`encodeURIComponent` throws. -/
theorem handleSearch_unpaired_surrogate :
    List.length (asciiToLowerCase [0xD800, 0x61]) = 2 ∧
      ((controllerWith none).handleSearch asciiToLowerCase [0xD800, 0x61]).requests = [] ∧
      ((controllerWith none).handleSearch asciiToLowerCase [0xD800, 0x61]).error =
        some JSError.URIError := by
  decide

/-! ## The constructor, the click listener and the request -/

section
variable {Num : Type} [JSNumber Num]

/-- C10: the constructor leaves `favoriteMatches` undefined, and so does
`populateLeagueFilters`, the callback of `loadFilters`.  On the controller it
returns, `displaySearchResults` of a non-empty array empties the container and
then throws a `TypeError` without rendering an item, `toggleFavorite` of any
button throws a `TypeError` and changes neither the controller, nor the
button, nor local storage, and `displaySearchResults` of the empty array
completes with an empty container. -/
theorem fresh_controller_has_no_favorites (page : PageElements) (m : Match Num)
    (ms : List (Match Num)) (btn : FavoriteButton Num) (stored : Option (List (JSVal Num)))
    (leagues : List (League Num)) :
    (MatchDiscovery.fresh page : MatchDiscovery Num).favoriteMatches = none ∧
    ((MatchDiscovery.fresh page : MatchDiscovery Num).populateLeagueFilters
      leagues).favoriteMatches = none ∧
    (MatchDiscovery.fresh page).displaySearchResults (m :: ms) =
      ({ (MatchDiscovery.fresh page) with searchResults := [] }, some JSError.TypeError) ∧
    (MatchDiscovery.fresh page).toggleFavorite btn stored =
      { ctl := MatchDiscovery.fresh page, btn := btn, stored := stored,
        error := some JSError.TypeError } ∧
    (MatchDiscovery.fresh page : MatchDiscovery Num).displaySearchResults [] =
      ({ (MatchDiscovery.fresh page) with searchResults := [] }, none) := by
  refine ⟨rfl, rfl, ?_, rfl, rfl⟩
  simp [MatchDiscovery.displaySearchResults, MatchDiscovery.fresh, MatchDiscovery.constructor,
    displayLoop]

/-- C5: the click listener calls `placeQuickBet` exactly when the event has
`shiftKey` set and `closest('.bet-btn')` of its target finds an element; a
click without the modifier makes no call and sends no request, and a call
made passes the `data-match-id`, `data-bet-type` and `data-odds` of that
element, which go into the request sent. -/
theorem quickBet_click_calls (getCookie : JSString → JSVal Num) (e : ClickEvent Num) :
    ((setupQuickBetListeners e).calls ≠ [] ↔
      (e.shiftKey = true ∧ ∃ btn, e.target = ClickTarget.element (some btn))) ∧
    (e.shiftKey = false →
      (setupQuickBetListeners e).calls = [] ∧ quickBetRequests getCookie e = []) ∧
    (∀ btn, e.shiftKey = true → e.target = ClickTarget.element (some btn) →
      (setupQuickBetListeners e).calls = [(btn.matchId, btn.betType, btn.odds)] ∧
      quickBetRequests getCookie e =
        [placeQuickBetRequest getCookie btn.matchId btn.betType btn.odds]) := by
  obtain ⟨shift, target⟩ := e
  refine ⟨?_, ?_, ?_⟩
  · cases shift
    · simp [setupQuickBetListeners]
    · rcases target with _ | _ | btn <;> simp [setupQuickBetListeners]
  · intro h
    simp only at h
    subst h
    simp [setupQuickBetListeners, quickBetRequests]
  · intro btn h1 h2
    simp only at h1 h2
    subst h1 h2
    simp [setupQuickBetListeners, quickBetRequests]

/-- C5, evaluated: a shift-click inside a bet button with
`data-match-id="7"`, `data-bet-type="win"` and `data-odds="1.5"` sends the
request to `/matches/bet/7/`, and the same click without shift sends
nothing. -/
theorem quickBet_click_calls_witness :
    ((setupQuickBetListeners (sampleClick true)).calls =
        [(JSVal.str (js "7"), JSVal.str (js "win"), JSVal.str (js "1.5"))] ∧
      quickBetRequests sampleCookie (sampleClick true) =
        [placeQuickBetRequest sampleCookie (JSVal.str (js "7")) (JSVal.str (js "win"))
          (JSVal.str (js "1.5"))]) ∧
    ((setupQuickBetListeners (sampleClick false)).calls = [] ∧
      quickBetRequests sampleCookie (sampleClick false) = []) :=
  ⟨(quickBet_click_calls sampleCookie (sampleClick true)).2.2 sampleBetButton rfl rfl,
    (quickBet_click_calls sampleCookie (sampleClick false)).2.1 rfl⟩

/-- C7: the request built by `placeQuickBet` is a `POST` to
`/matches/bet/` + matchId + `/`, its headers carry the bet type, the odds, the
quick-bet flag `true` and the `csrftoken` cookie, and its body is the text of
the empty JSON object, whatever the three arguments are. -/
theorem placeQuickBet_request (getCookie : JSString → JSVal Num)
    (respond : Request Num → Except JSError (Payload Num)) (page : BettingPage Num)
    (matchId betType odds : JSVal Num) :
    (placeQuickBet getCookie respond page matchId betType odds).request =
      placeQuickBetRequest getCookie matchId betType odds ∧
    (placeQuickBetRequest getCookie matchId betType odds).method = js "POST" ∧
    (placeQuickBetRequest getCookie matchId betType odds).url =
      js "/matches/bet/" ++ matchId.toStr ++ js "/" ∧
    (placeQuickBetRequest getCookie matchId betType odds).headers.lookup (js "X-Bet-Type") =
      some betType ∧
    (placeQuickBetRequest getCookie matchId betType odds).headers.lookup (js "X-Odds") =
      some odds ∧
    (placeQuickBetRequest getCookie matchId betType odds).headers.lookup (js "X-Quick-Bet") =
      some (JSVal.str (js "true")) ∧
    (placeQuickBetRequest getCookie matchId betType odds).headers.lookup (js "X-CSRFToken") =
      some (getCookie (js "csrftoken")) ∧
    (placeQuickBetRequest getCookie matchId betType odds).body = some (js "\x7b\x7d") := by
  refine ⟨?_, rfl, rfl, ?_, ?_, ?_, ?_, rfl⟩
  · simp only [placeQuickBet]
    split <;> rfl
  all_goals
    simp only [placeQuickBetRequest, List.lookup]
    rfl

end

/-! ## The response of a quick bet, and rendering -/

section
variable {Num : Type} [JSNumber Num]

theorem updateBalanceLoop_num (x : Num) (els : List JSString) :
    updateBalanceLoop (JSVal.num x) els =
      (els.map fun _ => numberToFixed2 (JSNumber.value x) (JSNumber.toStr x), none) := by
  induction els with
  | nil => rfl
  | cons el els ih => simp [updateBalanceLoop, toFixed2, ih]

theorem updateBalanceLoop_not_num (v : JSVal Num) (hv : ∀ x, v ≠ JSVal.num x) (el : JSString)
    (els : List JSString) :
    updateBalanceLoop v (el :: els) = (el :: els, some JSError.TypeError) := by
  cases v with
  | num x => exact absurd rfl (hv x)
  | _ => rfl

theorem natDigitsAux_digit (fuel n : Nat) : ∀ c ∈ natDigitsAux fuel n, 48 ≤ c ∧ c ≤ 57 := by
  induction fuel generalizing n with
  | zero =>
    intro c hc
    simp only [natDigitsAux, List.mem_singleton] at hc
    omega
  | succ fuel ih =>
    intro c hc
    unfold natDigitsAux at hc
    split at hc
    · simp only [List.mem_singleton] at hc
      omega
    · rcases List.mem_append.1 hc with h | h
      · exact ih _ c h
      · simp only [List.mem_singleton] at h
        omega

theorem digitsValue_append (l : List Nat) (c : Nat) :
    digitsValue (l ++ [c]) = 10 * digitsValue l + (c - 48) := by
  simp [digitsValue, List.foldl_append]

theorem natDigitsAux_value (fuel n : Nat) (h : n ≤ fuel) :
    digitsValue (natDigitsAux fuel n) = n := by
  induction fuel generalizing n with
  | zero =>
    have : n = 0 := by omega
    subst this
    rfl
  | succ fuel ih =>
    unfold natDigitsAux
    split
    · simp [digitsValue]
    · rw [digitsValue_append, ih (n / 10) (by omega)]
      omega

theorem digitsValue_zeros (j : Nat) (l : List Nat) :
    digitsValue (List.replicate j 48 ++ l) = digitsValue l := by
  induction j with
  | zero => rfl
  | succ j ih =>
    rw [List.replicate_succ, List.cons_append]
    exact ih

theorem natDigitsAux_ne_nil (fuel n : Nat) : natDigitsAux fuel n ≠ [] := by
  cases fuel with
  | zero => simp [natDigitsAux]
  | succ fuel =>
    unfold natDigitsAux
    split <;> simp

/-- The text `toFixed(2)` writes below `10^21`: an optional minus sign, one or
more digits, a point and two digits, which together write the nearest number
of hundredths. -/
theorem fixedDigits2_format (negative : Bool) (num den : Nat) :
    ∃ whole d1 d2,
      fixedDigits2 negative num den =
        (if negative && decide (0 < num) then [45] else []) ++ whole ++ [46, d1, d2] ∧
      whole ≠ [] ∧ (∀ c ∈ whole, 48 ≤ c ∧ c ≤ 57) ∧
      (48 ≤ d1 ∧ d1 ≤ 57) ∧ (48 ≤ d2 ∧ d2 ≤ 57) ∧
      digitsValue (whole ++ [d1, d2]) = (200 * num + den) / (2 * den) := by
  have hdig := natDigitsAux_digit ((200 * num + den) / (2 * den)) ((200 * num + den) / (2 * den))
  have hval := natDigitsAux_value ((200 * num + den) / (2 * den)) _ (Nat.le_refl _)
  have hne := natDigitsAux_ne_nil ((200 * num + den) / (2 * den)) ((200 * num + den) / (2 * den))
  generalize hm : List.replicate (3 - (natDigits ((200 * num + den) / (2 * den))).length) 48 ++
    natDigits ((200 * num + den) / (2 * den)) = m
  have hmdig : ∀ c ∈ m, 48 ≤ c ∧ c ≤ 57 := by
    intro c hc
    rw [← hm] at hc
    rcases List.mem_append.1 hc with h | h
    · have := (List.mem_replicate.1 h).2
      omega
    · exact hdig c h
  have hmval : digitsValue m = (200 * num + den) / (2 * den) := by
    rw [← hm, digitsValue_zeros]
    exact hval
  have hmlen : 3 ≤ m.length := by
    rw [← hm]
    simp only [List.length_append, List.length_replicate]
    omega
  have hdrop : (m.drop (m.length - 2)).length = 2 := by
    rw [List.length_drop]
    omega
  obtain ⟨d1, d2, hd⟩ : ∃ d1 d2, m.drop (m.length - 2) = [d1, d2] := by
    match hl : m.drop (m.length - 2), hdrop with
    | [a, b], _ => exact ⟨a, b, rfl⟩
  have hsplit : m.take (m.length - 2) ++ [d1, d2] = m := by
    rw [← hd]
    exact List.take_append_drop _ _
  refine ⟨m.take (m.length - 2), d1, d2, ?_, ?_, ?_, ?_, ?_, ?_⟩
  · simp only [fixedDigits2, hm, hd]
    simp
  · intro h
    have := congrArg List.length h
    rw [List.length_take] at this
    simp at this
    omega
  · intro c hc
    exact hmdig c (List.mem_of_mem_take hc)
  · exact hmdig d1 (by rw [← hsplit]; simp)
  · exact hmdig d2 (by rw [← hsplit]; simp)
  · rw [hsplit]
    exact hmval

/-- C6 (amended): when the payload has a truthy `success` and a number as
`new_balance` that is finite and of magnitude below `10^21`, after
`placeQuickBet` has handled it every `.user-balance` element (as many as
before) shows the same text, the new balance with exactly two decimals: an
optional minus sign, one or more digits, a point and two digits, which write
the number of hundredths nearest to the balance; and the only notification
added is the success one. -/
theorem placeQuickBet_success_updates_balances (getCookie : JSString → JSVal Num)
    (respond : Request Num → Except JSError (Payload Num)) (page : BettingPage Num)
    (matchId betType odds : JSVal Num) (data : Payload Num) (x : Num) (negative : Bool)
    (num den : Nat)
    (hresp : respond (placeQuickBetRequest getCookie matchId betType odds) = .ok data)
    (hsuccess : data.success.toBoolean = true) (hbalance : data.new_balance = JSVal.num x)
    (hvalue : JSNumber.value x = NumValue.finite negative num den)
    (hbound : num < 10 ^ 21 * den) :
    (placeQuickBet getCookie respond page matchId betType odds).page.balances.length =
      page.balances.length ∧
    (∃ whole d1 d2,
      (∀ text ∈ (placeQuickBet getCookie respond page matchId betType odds).page.balances,
        text = (if negative && decide (0 < num) then [45] else []) ++ whole ++ [46, d1, d2]) ∧
      whole ≠ [] ∧ (∀ c ∈ whole, 48 ≤ c ∧ c ≤ 57) ∧
      (48 ≤ d1 ∧ d1 ≤ 57) ∧ (48 ≤ d2 ∧ d2 ≤ 57) ∧
      digitsValue (whole ++ [d1, d2]) = (200 * num + den) / (2 * den)) ∧
    (placeQuickBet getCookie respond page matchId betType odds).page.notifications =
      page.notifications ++
        [{ message := JSVal.str (js "Bet placed successfully!"), kind := JSVal.undefined }] := by
  obtain ⟨whole, d1, d2, hfmt, h1, h2, h3, h4, h5⟩ := fixedDigits2_format negative num den
  have hfix : numberToFixed2 (JSNumber.value x) (JSNumber.toStr x) =
      fixedDigits2 negative num den := by
    rw [hvalue]
    exact if_pos hbound
  simp only [placeQuickBet, hresp, onBetResponse, hsuccess, if_true, updateBalance, hbalance,
    updateBalanceLoop_num, showNotification, hfix]
  refine ⟨by simp, ⟨whole, d1, d2, ?_, h1, h2, h3, h4, h5⟩, by simp⟩
  intro text htext
  simp only [List.mem_map] at htext
  obtain ⟨_, _, rfl⟩ := htext
  exact hfmt

/-- C6 (amended), evaluated: the payload `success: true, new_balance: 25` sets
both balance displays of the sample page to `25.00` and shows one
notification. -/
theorem placeQuickBet_success_updates_balances_witness :
    (placeQuickBet sampleCookie (fun _ => .ok acceptedPayload) samplePage (JSVal.str (js "7"))
        (JSVal.str (js "win")) (JSVal.str (js "1.5"))).page.balances = [js "25.00", js "25.00"] ∧
    (placeQuickBet sampleCookie (fun _ => .ok acceptedPayload) samplePage (JSVal.str (js "7"))
        (JSVal.str (js "win")) (JSVal.str (js "1.5"))).page.balances.length =
      samplePage.balances.length ∧
    (∃ whole d1 d2,
      (∀ text ∈ (placeQuickBet sampleCookie (fun _ => .ok acceptedPayload) samplePage
          (JSVal.str (js "7")) (JSVal.str (js "win")) (JSVal.str (js "1.5"))).page.balances,
        text = (if false && decide (0 < 25) then [45] else []) ++ whole ++ [46, d1, d2]) ∧
      whole ≠ [] ∧ (∀ c ∈ whole, 48 ≤ c ∧ c ≤ 57) ∧
      (48 ≤ d1 ∧ d1 ≤ 57) ∧ (48 ≤ d2 ∧ d2 ≤ 57) ∧
      digitsValue (whole ++ [d1, d2]) = (200 * 25 + 1) / (2 * 1)) ∧
    (placeQuickBet sampleCookie (fun _ => .ok acceptedPayload) samplePage (JSVal.str (js "7"))
        (JSVal.str (js "win")) (JSVal.str (js "1.5"))).page.notifications =
      samplePage.notifications ++
        [{ message := JSVal.str (js "Bet placed successfully!"), kind := JSVal.undefined }] :=
  ⟨by decide,
    placeQuickBet_success_updates_balances sampleCookie (fun _ => .ok acceptedPayload) samplePage
      (JSVal.str (js "7")) (JSVal.str (js "win")) (JSVal.str (js "1.5")) acceptedPayload 25
      false 25 1 rfl rfl rfl (by decide) (by decide)⟩

/-- C6 as stated fails on the balance `10^21`: `toFixed(2)` gives the text
`1e+21`, so both balance displays show a text without decimals. -/
theorem placeQuickBet_huge_balance_has_no_decimals :
    hugePayload.success.toBoolean = true ∧
    hugePayload.new_balance = JSVal.num 1000000000000000000000 ∧
    (placeQuickBet sampleCookie (fun _ => .ok hugePayload) samplePage (JSVal.str (js "7"))
        (JSVal.str (js "win")) (JSVal.str (js "1.5"))).page.balances = [js "1e+21", js "1e+21"] := by
  decide

/-- C2 (amended): once the response has been parsed into `data`, the promise
returned by `placeQuickBet` resolves to `data` when `success` is falsy
(whatever `new_balance` is), when `success` is truthy and `new_balance` is a
number, and when `success` is truthy and the page has no `.user-balance`
element; when `success` is truthy, `new_balance` is not a number and the page
has a `.user-balance` element, it rejects with the `TypeError` thrown by
`updateBalance`. -/
theorem placeQuickBet_settles (getCookie : JSString → JSVal Num)
    (respond : Request Num → Except JSError (Payload Num)) (page : BettingPage Num)
    (matchId betType odds : JSVal Num) (data : Payload Num)
    (hresp : respond (placeQuickBetRequest getCookie matchId betType odds) = .ok data) :
    (data.success.toBoolean = false →
      (placeQuickBet getCookie respond page matchId betType odds).settled = .ok data) ∧
    (data.success.toBoolean = true → (∃ x, data.new_balance = JSVal.num x) →
      (placeQuickBet getCookie respond page matchId betType odds).settled = .ok data) ∧
    (data.success.toBoolean = true → page.balances = [] →
      (placeQuickBet getCookie respond page matchId betType odds).settled = .ok data) ∧
    (data.success.toBoolean = true → (∀ x, data.new_balance ≠ JSVal.num x) →
      page.balances ≠ [] →
      (placeQuickBet getCookie respond page matchId betType odds).settled =
        .error JSError.TypeError) := by
  refine ⟨fun hs => ?_, fun hs hb => ?_, fun hs hb => ?_, fun hs hb hne => ?_⟩
  · simp [placeQuickBet, hresp, onBetResponse, hs]
  · obtain ⟨x, hx⟩ := hb
    simp [placeQuickBet, hresp, onBetResponse, hs, updateBalance, hx, updateBalanceLoop_num,
      showNotification]
  · simp [placeQuickBet, hresp, onBetResponse, hs, updateBalance, hb, updateBalanceLoop,
      showNotification]
  · obtain ⟨el, els, hels⟩ := List.exists_cons_of_ne_nil hne
    simp [placeQuickBet, hresp, onBetResponse, hs, updateBalance, hels,
      updateBalanceLoop_not_num _ hb, showNotification]

end

/-- C2 (amended), evaluated on the sample page: a refused bet resolves to its
payload, an accepted one with the balance `25` resolves to its payload, and an
accepted one without `new_balance` rejects. -/
theorem placeQuickBet_settles_witness :
    (placeQuickBet sampleCookie (fun _ => .ok refusedPayload) samplePage (JSVal.str (js "7"))
        (JSVal.str (js "win")) (JSVal.str (js "1.5"))).settled = .ok refusedPayload ∧
    (placeQuickBet sampleCookie (fun _ => .ok acceptedPayload) samplePage (JSVal.str (js "7"))
        (JSVal.str (js "win")) (JSVal.str (js "1.5"))).settled = .ok acceptedPayload ∧
    (placeQuickBet sampleCookie (fun _ => .ok incompletePayload) samplePage (JSVal.str (js "7"))
        (JSVal.str (js "win")) (JSVal.str (js "1.5"))).settled = .error JSError.TypeError :=
  ⟨(placeQuickBet_settles sampleCookie (fun _ => .ok refusedPayload) samplePage
      (JSVal.str (js "7")) (JSVal.str (js "win")) (JSVal.str (js "1.5")) refusedPayload rfl).1 rfl,
    (placeQuickBet_settles sampleCookie (fun _ => .ok acceptedPayload) samplePage
      (JSVal.str (js "7")) (JSVal.str (js "win")) (JSVal.str (js "1.5")) acceptedPayload
      rfl).2.1 rfl ⟨25, rfl⟩,
    (placeQuickBet_settles sampleCookie (fun _ => .ok incompletePayload) samplePage
      (JSVal.str (js "7")) (JSVal.str (js "win")) (JSVal.str (js "1.5")) incompletePayload
      rfl).2.2.2 rfl (fun _ h => JSVal.noConfusion h) (by decide)⟩

/-- C3, evaluated on the match id `7` sent as a number: the rendered button
carries `data-match-id="7"`, `toggleFavorite` stores the string `"7"` and
stars the button, and the next render of the same result looks up the number
`7`, does not find it and shows the item as not favourite.  With the id sent
as the string `"7"` the same steps show it as favourite. -/
theorem displaySearchResults_numeric_id_not_favorite :
    (∃ ctl1 item r,
      (controllerWith (some [])).displaySearchResults [sampleMatch (JSVal.num 7)] = (ctl1, none) ∧
      ctl1.searchResults = [item] ∧ item.buttonMatchId = js "7" ∧
      ctl1.toggleFavorite (renderedButton item) none = r ∧ r.error = none ∧
      r.ctl.favoriteMatches = some [JSVal.str (js "7")] ∧
      r.btn.icon = some (js "fas fa-star") ∧
      (r.ctl.displaySearchResults [sampleMatch (JSVal.num 7)]).1.searchResults.map
          (fun i => (i.className, i.iconClass)) = [(js "search-item ", js "fas fa-star-o")]) ∧
    (∃ ctl1 item r,
      (controllerWith (some [])).displaySearchResults [sampleMatch (JSVal.str (js "7"))]
        = (ctl1, none) ∧
      ctl1.searchResults = [item] ∧ item.buttonMatchId = js "7" ∧
      ctl1.toggleFavorite (renderedButton item) none = r ∧ r.error = none ∧
      r.ctl.favoriteMatches = some [JSVal.str (js "7")] ∧
      (r.ctl.displaySearchResults [sampleMatch (JSVal.str (js "7"))]).1.searchResults.map
          (fun i => (i.className, i.iconClass)) =
        [(js "search-item favorite", js "fas fa-star")]) := by
  refine ⟨⟨_, _, _, rfl, rfl, ?_, rfl, ?_, ?_, ?_, ?_⟩, ⟨_, _, _, rfl, rfl, ?_, rfl, ?_, ?_, ?_⟩⟩ <;>
    decide

/-- C2 as stated fails on the payload `success: true` without `new_balance`
when the page has a balance display: the promise rejects with a `TypeError`
instead of resolving to the payload. -/
theorem placeQuickBet_rejects_without_new_balance :
    incompletePayload.success = JSVal.bool true ∧
    incompletePayload.new_balance = JSVal.undefined ∧
    (placeQuickBet sampleCookie (fun _ => .ok incompletePayload) samplePage (JSVal.str (js "7"))
        (JSVal.str (js "win")) (JSVal.str (js "1.5"))).settled = .error JSError.TypeError :=
  ⟨rfl, rfl, rfl⟩

/-! ## `debounce` -/

namespace Debounced
variable {σ α : Type}

theorem advance_before (w : Debounced σ α) (id due t : Nat) (a : α) (cb : σ → σ)
    (hw : w.timers = [{ id := id, due := due, args := a, callback := cb }]) (ht : t < due) :
    w.advance t = { w with now := max w.now t } := by
  have hn : ¬ due ≤ t := Nat.not_le.2 ht
  simp [advance, hw, hn, ht]

theorem advance_after (w : Debounced σ α) (id due t : Nat) (a : α) (cb : σ → σ)
    (hw : w.timers = [{ id := id, due := due, args := a, callback := cb }]) (ht : due ≤ t) :
    w.advance t =
      { w with now := max w.now t, timers := [], state := cb w.state,
               invoked := w.invoked ++ [(due, a)] } := by
  simp [advance, hw, ht]

theorem advance_idle (w : Debounced σ α) (t : Nat) (hw : w.timers = []) :
    w.advance t = { w with now := max w.now t } := by
  simp [advance, hw]

theorem debounce_idle (func : α → σ → σ) (timeout : Nat) (w : Debounced σ α) (b : α)
    (hw : w.timers = []) :
    debounce func timeout w b =
      { w with nextId := w.nextId + 1,
               timers := [{ id := w.nextId, due := w.now + timeout, args := b,
                            callback := func b }],
               timer := some w.nextId } := by
  cases h : w.timer <;> simp [debounce, clearTimeout, setTimeout, hw, h]

theorem debounce_pending (func : α → σ → σ) (timeout : Nat) (w : Debounced σ α) (id due : Nat)
    (a b : α) (cb : σ → σ)
    (hw : w.timers = [{ id := id, due := due, args := a, callback := cb }])
    (ht : w.timer = some id) :
    debounce func timeout w b =
      { w with nextId := w.nextId + 1,
               timers := [{ id := w.nextId, due := w.now + timeout, args := b,
                            callback := func b }],
               timer := some w.nextId } := by
  simp [debounce, clearTimeout, setTimeout, hw, ht]

theorem debounce_fields (func : α → σ → σ) (timeout : Nat) (w : Debounced σ α) (id due : Nat)
    (a b : α) (cb : σ → σ)
    (hw : w.timers = [{ id := id, due := due, args := a, callback := cb }])
    (ht : w.timer = some id) :
    (debounce func timeout w b).timers =
      [{ id := w.nextId, due := w.now + timeout, args := b, callback := func b }] ∧
    (debounce func timeout w b).timer = some w.nextId ∧
    (debounce func timeout w b).now = w.now ∧
    (debounce func timeout w b).invoked = w.invoked ∧
    (debounce func timeout w b).state = w.state := by
  rw [debounce_pending func timeout w id due a b cb hw ht]
  exact ⟨rfl, rfl, rfl, rfl, rfl⟩

theorem armed_first (func : α → σ → σ) (timeout start : Nat) (s : σ) (c : Nat × α)
    (h : start ≤ c.1) :
    Armed func timeout (callAt func timeout (init start s) c) c.1 c.2 s := by
  unfold callAt
  rw [advance_idle _ _ rfl, debounce_idle _ _ _ _ rfl]
  exact ⟨⟨_, by simp [init, Nat.max_eq_right h], rfl⟩, by simp [init, Nat.max_eq_right h], rfl, rfl⟩

theorem armed_next (func : α → σ → σ) (timeout : Nat) (w : Debounced σ α) (t : Nat) (a : α)
    (s : σ) (c : Nat × α) (hw : Armed func timeout w t a s) (h1 : t ≤ c.1)
    (h2 : c.1 < t + timeout) :
    Armed func timeout (callAt func timeout w c) c.1 c.2 s := by
  obtain ⟨⟨id, htimers, htimer⟩, hnow, hinv, hstate⟩ := hw
  unfold callAt
  rw [advance_before w id _ _ a _ htimers h2]
  rw [debounce_pending func timeout { w with now := max w.now c.1 } id _ a c.2 _ htimers htimer]
  exact ⟨⟨_, by simp [hnow, Nat.max_eq_right h1], rfl⟩, by simp [hnow, Nat.max_eq_right h1],
    hinv, hstate⟩

theorem armed_foldl (func : α → σ → σ) (timeout : Nat) (s : σ) :
    ∀ (cs : List (Nat × α)) (w : Debounced σ α) (c : Nat × α), Armed func timeout w c.1 c.2 s →
      QuickCallsFrom timeout c.1 cs →
      Armed func timeout (cs.foldl (callAt func timeout) w) ((c :: cs).getLast (by simp)).1
        ((c :: cs).getLast (by simp)).2 s
  | [], w, c, hw, _ => by simpa using hw
  | d :: cs, w, c, hw, hq => by
    obtain ⟨h1, h2, h3⟩ := hq
    have := armed_foldl func timeout s cs (callAt func timeout w d) d
      (armed_next func timeout w c.1 c.2 s d hw h1 h2) h3
    simpa [List.getLast_cons] using this

theorem armed_run (func : α → σ → σ) (timeout start : Nat) (s : σ) (calls : List (Nat × α))
    (last : Nat × α) (h : QuickCalls timeout start (calls ++ [last])) :
    Armed func timeout ((calls ++ [last]).foldl (callAt func timeout) (init start s))
      last.1 last.2 s := by
  cases calls with
  | nil =>
    simpa using armed_first func timeout start s last h.1
  | cons c cs =>
    obtain ⟨h1, h2⟩ := h
    have := armed_foldl func timeout s (cs ++ [last]) _ c (armed_first func timeout start s c h1) h2
    simpa [List.getLast_cons] using this

theorem armed_advance (func : α → σ → σ) (timeout : Nat) (w : Debounced σ α) (t : Nat) (a : α)
    (s : σ) (hw : Armed func timeout w t a s) (tEnd : Nat) :
    (tEnd < t + timeout →
      (w.advance tEnd).invoked = [] ∧ (w.advance tEnd).state = s) ∧
    (t + timeout ≤ tEnd →
      (w.advance tEnd).invoked = [(t + timeout, a)] ∧
      (w.advance tEnd).state = func a s ∧ (w.advance tEnd).timers = []) := by
  obtain ⟨⟨id, htimers, _⟩, _, hinv, hstate⟩ := hw
  refine ⟨fun h => ?_, fun h => ?_⟩
  · rw [advance_before w id _ _ a _ htimers h]
    exact ⟨hinv, hstate⟩
  · rw [advance_after w id _ _ a _ htimers h]
    simp [hinv, hstate]

end Debounced

section
variable {Num : Type}

theorem armed_typeAt_first (toLowerCase : JSString → JSString) (b : SearchBox Num)
    (c : Nat × JSString) :
    Debounced.Armed (SearchBox.onInput toLowerCase) 300
      (typeAt toLowerCase (Debounced.init 0 b) c) c.1 () { b with value := c.2 } := by
  unfold typeAt
  rw [Debounced.advance_idle _ _ rfl, Debounced.debounce_idle _ _ _ _ rfl]
  exact ⟨⟨_, by simp [Debounced.init], rfl⟩, by simp [Debounced.init], rfl, rfl⟩

theorem armed_typeAt_next (toLowerCase : JSString → JSString)
    (w : Debounced (SearchBox Num) Unit) (t : Nat) (b : SearchBox Num) (c : Nat × JSString)
    (hw : Debounced.Armed (SearchBox.onInput toLowerCase) 300 w t () b) (h1 : t ≤ c.1)
    (h2 : c.1 < t + 300) :
    Debounced.Armed (SearchBox.onInput toLowerCase) 300 (typeAt toLowerCase w c) c.1 ()
      { b with value := c.2 } := by
  obtain ⟨⟨id, htimers, htimer⟩, hnow, hinv, hstate⟩ := hw
  unfold typeAt
  rw [Debounced.advance_before w id _ _ () _ htimers h2]
  obtain ⟨c1, c2, c3, c4, c5⟩ := Debounced.debounce_fields (SearchBox.onInput toLowerCase) 300
    { w with now := max w.now c.1, state := { w.state with value := c.2 } } id _ () () _ htimers
    htimer
  have hmax : max w.now c.1 = c.1 := by rw [hnow]; exact Nat.max_eq_right h1
  refine ⟨⟨w.nextId, c1.trans ?_, c2⟩, c3.trans hmax, c4.trans hinv, c5.trans ?_⟩
  · show [({ id := w.nextId, due := max w.now c.1 + 300, args := (),
             callback := SearchBox.onInput toLowerCase () } : Timer (SearchBox Num) Unit)] = _
    rw [hmax]
  · show ({ w.state with value := c.2 } : SearchBox Num) = _
    rw [hstate]

/-- C8, for the body of `debounce` (lines 120 to 126) read as the body of a
function: after calls in quick succession, each less than `timeout` ms after
the one before, `func` has not run before `timeout` ms have passed since the
last call, and from then on it has run exactly once, at that time, with the
`this` value and arguments of the last call.  Typing `a`, `ar`, `ars` into the
search box in quick succession makes exactly one call of `handleSearch`,
300 ms after the last edit, which sends exactly one request, to
`/api/matches/search?q=ars`. -/
theorem debounce_quick_calls_invoke_once {σ α : Type} (func : α → σ → σ)
    (timeout start : Nat) (s : σ) (calls : List (Nat × α)) (last : Nat × α) (tEnd : Nat)
    (toLowerCase : JSString → JSString) (b : SearchBox Num) (t1 t2 t3 : Nat)
    (hquick : QuickCalls timeout start (calls ++ [last]))
    (h12 : t1 ≤ t2 ∧ t2 < t1 + 300) (h23 : t2 ≤ t3 ∧ t3 < t2 + 300)
    (hlower : toLowerCase (js "ars") = js "ars") :
    (tEnd < last.1 + timeout →
      (debounceRun func timeout start s (calls ++ [last]) tEnd).invoked = [] ∧
      (debounceRun func timeout start s (calls ++ [last]) tEnd).state = s) ∧
    (last.1 + timeout ≤ tEnd →
      (debounceRun func timeout start s (calls ++ [last]) tEnd).invoked =
        [(last.1 + timeout, last.2)] ∧
      (debounceRun func timeout start s (calls ++ [last]) tEnd).state = func last.2 s ∧
      (debounceRun func timeout start s (calls ++ [last]) tEnd).timers = []) ∧
    (tEnd < t3 + 300 →
      (typing toLowerCase b [(t1, js "a"), (t2, js "ar"), (t3, js "ars")] tEnd).invoked = [] ∧
      (typing toLowerCase b [(t1, js "a"), (t2, js "ar"), (t3, js "ars")] tEnd).state.fetches =
        b.fetches) ∧
    (t3 + 300 ≤ tEnd →
      (typing toLowerCase b [(t1, js "a"), (t2, js "ar"), (t3, js "ars")] tEnd).invoked =
        [(t3 + 300, ())] ∧
      (typing toLowerCase b [(t1, js "a"), (t2, js "ar"), (t3, js "ars")] tEnd).state.fetches =
        b.fetches ++ [fetchGet (js "/api/matches/search?q=ars")]) := by
  have hrun := Debounced.armed_advance func timeout _ last.1 last.2 s
    (Debounced.armed_run func timeout start s calls last hquick) tEnd
  have h1 := armed_typeAt_first toLowerCase b (t1, js "a")
  have h2 := armed_typeAt_next toLowerCase _ _ _ (t2, js "ar") h1 h12.1 h12.2
  have h3 := armed_typeAt_next toLowerCase _ _ _ (t3, js "ars") h2 h23.1 h23.2
  have htype := Debounced.armed_advance (SearchBox.onInput toLowerCase) 300 _ _ _ _ h3 tEnd
  refine ⟨hrun.1, hrun.2, fun h => ?_, fun h => ?_⟩
  · obtain ⟨hi, hs⟩ := htype.1 h
    simp only [typing, List.foldl]
    exact ⟨hi, by rw [hs]⟩
  · obtain ⟨hi, hs, _⟩ := htype.2 h
    simp only [typing, List.foldl]
    refine ⟨hi, ?_⟩
    rw [hs]
    have henc : encodeURIComponent (js "ars") = .ok (js "ars") := rfl
    have hlen : ¬ List.length (js "ars") < 2 := by decide
    have hurl : js "/api/matches/search?q=" ++ js "ars" = js "/api/matches/search?q=ars" := by
      decide
    simp [SearchBox.onInput, MatchDiscovery.handleSearch, hlower, henc, hlen, hurl]

end

/-- C8 (body of `debounce`), evaluated: three calls at 0, 100 and 250 ms with a
timeout of 300 ms run `func` once, at 550 ms, on the data of the third call;
the edits `a`, `ar`, `ars` at 0, 100 and 200 ms send one request at 500 ms. -/
theorem debounce_quick_calls_invoke_once_witness :
    (debounceRun (fun (a : Nat) (s : List Nat) => s ++ [a]) 300 0 []
        ([(0, 1), (100, 2)] ++ [(250, 3)]) 600).invoked = [(550, 3)] ∧
    (debounceRun (fun (a : Nat) (s : List Nat) => s ++ [a]) 300 0 []
        ([(0, 1), (100, 2)] ++ [(250, 3)]) 600).state = [3] ∧
    (typing asciiToLowerCase sampleSearchBox [(0, js "a"), (100, js "ar"), (200, js "ars")]
        600).invoked = [(500, ())] ∧
    (typing asciiToLowerCase sampleSearchBox [(0, js "a"), (100, js "ar"), (200, js "ars")]
        600).state.fetches =
      sampleSearchBox.fetches ++ [fetchGet (js "/api/matches/search?q=ars")] :=
  have h := debounce_quick_calls_invoke_once (fun (a : Nat) (s : List Nat) => s ++ [a]) 300 0 []
    [(0, 1), (100, 2)] (250, 3) 600 asciiToLowerCase sampleSearchBox 0 100 200
    ⟨by decide, by decide, by decide, by decide, by decide, trivial⟩
    ⟨by decide, by decide⟩ ⟨by decide, by decide⟩ (by decide)
  ⟨(h.2.1 (by decide)).1, (h.2.1 (by decide)).2.1, (h.2.2.2 (by decide)).1,
    (h.2.2.2 (by decide)).2⟩

end Bookmaker
